import Mathlib

/-!
Verification model of the promptoon backend (src/promptoon.py, "V1", and
src/python/promptoon.py, "V2").  The two Python files are shallowly
embedded: pure helpers become Lean functions over byte lists (`List Nat`,
each entry a byte value) and a small JSON value type; the Flask handler
and the upstream API clients become functions from an explicit request
environment (request fields plus oracles for the external world: the
image codec, the upstream HTTP reply, the clock, the random uuid) to the
HTTP response paired with a trace of the side effects they perform.
-/

/-- JSON values, as produced by `json.loads` / consumed by `jsonify`.
Objects keep their key order, as Python dicts do. -/
inductive JVal where
  | jstr (s : String)
  | jnum (n : Int)
  | jbool (b : Bool)
  | jnull
  | jarr (xs : List JVal)
  | jobj (kvs : List (String × JVal))
deriving Repr

namespace JVal

/-- `d[k]` / `d.get(k)` on a JSON object: first binding of key `k`;
`none` models `KeyError` (or a lookup on a non-object, `TypeError`). -/
def getKey : JVal → String → Option JVal
  | .jobj kvs, k => (kvs.find? (fun kv => kv.1 = k)).map (·.2)
  | _, _ => none

/-- `d.get(k, default)` on a JSON object. -/
def getD (j : JVal) (k : String) (dflt : JVal) : JVal :=
  (j.getKey k).getD dflt

/-- `xs[i]` on a JSON array; `none` models `IndexError` (or `TypeError`). -/
def getIdx : JVal → Nat → Option JVal
  | .jarr xs, i => xs.get? i
  | _, _ => none

/-- View a JSON value as a string (`none` when it is not one). -/
def asStr : JVal → Option String
  | .jstr s => some s
  | _ => none

/-- View a JSON value as an array (`none` when it is not one). -/
def asArr : JVal → Option (List JVal)
  | .jarr xs => some xs
  | _ => none

/-- Whether a JSON object response body carries key `k`. -/
def hasKey (j : JVal) (k : String) : Bool :=
  (j.getKey k).isSome

/-- The list of keys of a JSON object (empty for non-objects). -/
def keys : JVal → List String
  | .jobj kvs => kvs.map (·.1)
  | _ => []

end JVal

/-!
## Image normalizer — `compress_image` (identical in both files)

PIL is external; it enters the model as an `ImgCodec` oracle:
`decode` is `Image.open` followed by the `convert("RGB")` step (`none`
models any exception raised there), and `encodeq img q` is
`img.save(buffer, format="JPEG", quality=q, optimize=True)` followed by
`buffer.getvalue()` (`none` models an exception during saving).  Any
exception anywhere in the Python function is caught by its `except`
clause, which returns the original bytes.

The Python parameter is `max_size_mb` with `max_size_bytes =
max_size_mb * 1024 * 1024`; the model takes `max_size_bytes` directly
(the handler's call passes `max_size_mb=0.5`, i.e. 524288 bytes).
-/

/-- Oracle for the PIL operations used by `compress_image`. -/
structure ImgCodec (Img : Type) where
  decode : List Nat → Option Img
  encodeq : Img → Nat → Option (List Nat)

/-- The `while True` re-encoding loop of `compress_image`: encode at
`quality`, return the result if it fits in `max_size_bytes` or
`quality <= 10`, otherwise retry at `quality - 10`.  `none` propagates
an encoder exception. -/
def compressLoop (enc : Nat → Option (List Nat)) (max_size_bytes : Nat) :
    Nat → Option (List Nat)
  | quality =>
    match enc quality with
    | none => none
    | some compressed_data =>
      if compressed_data.length ≤ max_size_bytes ∨ quality ≤ 10 then
        some compressed_data
      else
        compressLoop enc max_size_bytes (quality - 10)
  termination_by q => q
  decreasing_by
    rename_i h
    push_neg at h
    omega

/-- `compress_image(image_data, ...)`: decode (exceptions fall back to
the original bytes), return the input unchanged when it already fits,
otherwise run the quality-lowering loop starting at 85. -/
def compress_image {Img : Type} (codec : ImgCodec Img)
    (image_data : List Nat) (max_size_bytes : Nat) : List Nat :=
  match codec.decode image_data with
  | none => image_data
  | some img =>
    if image_data.length ≤ max_size_bytes then
      image_data
    else
      match compressLoop (codec.encodeq img) max_size_bytes 85 with
      | some compressed_data => compressed_data
      | none => image_data

/-- The descending sequence of qualities the loop can visit from a given
start: step −10, final entry the first value `≤ 10`. -/
def qualityChain : Nat → List Nat
  | q => if q ≤ 10 then [q] else q :: qualityChain (q - 10)
  termination_by q => q
  decreasing_by omega

/-!
## Base64 (Python `base64.b64encode` / `base64.urlsafe_b64decode`)

The standard alphabet is used for the image payload
(`base64.b64encode(image_data)`), the urlsafe alphabet by the Fernet
token codec.  `b64DecodeCore` is strict: a character outside the
alphabet, a group that is not 4 characters, or `=` anywhere but the
final group makes it fail, modelling `binascii.Error`.
-/

def b64StdAlphabet : List Char :=
  "ABCDEFGHIJKLMNOPQRSTUVWXYZabcdefghijklmnopqrstuvwxyz0123456789+/".toList

def b64UrlAlphabet : List Char :=
  "ABCDEFGHIJKLMNOPQRSTUVWXYZabcdefghijklmnopqrstuvwxyz0123456789-_".toList

/-- The alphabet character for a sextet value. -/
def sextetChar (alpha : List Char) (n : Nat) : Char :=
  alpha.getD n 'A'

/-- The sextet value of an alphabet character (`none` outside the alphabet). -/
def charSextet (alpha : List Char) (c : Char) : Option Nat :=
  alpha.findIdx? (fun a => a == c)

/-- Encode a byte list in base64: 3 bytes per 4 characters, the final
group padded with `=`. -/
def b64EncodeCore (alpha : List Char) : List Nat → List Char
  | [] => []
  | [b0] =>
    [sextetChar alpha (b0 / 4), sextetChar alpha (b0 % 4 * 16), '=', '=']
  | [b0, b1] =>
    [sextetChar alpha (b0 / 4), sextetChar alpha (b0 % 4 * 16 + b1 / 16),
     sextetChar alpha (b1 % 16 * 4), '=']
  | b0 :: b1 :: b2 :: rest =>
    sextetChar alpha (b0 / 4) :: sextetChar alpha (b0 % 4 * 16 + b1 / 16) ::
    sextetChar alpha (b1 % 16 * 4 + b2 / 64) :: sextetChar alpha (b2 % 64) ::
    b64EncodeCore alpha rest

/-- Decode a base64 character list (`none` models `binascii.Error`). -/
def b64DecodeCore (alpha : List Char) : List Char → Option (List Nat)
  | [] => some []
  | c0 :: c1 :: c2 :: c3 :: rest =>
    match charSextet alpha c0, charSextet alpha c1 with
    | some s0, some s1 =>
      if c2 = '=' then
        if c3 = '=' ∧ rest = [] then some [s0 * 4 + s1 / 16] else none
      else
        match charSextet alpha c2 with
        | some s2 =>
          if c3 = '=' then
            if rest = [] then
              some [s0 * 4 + s1 / 16, s1 % 16 * 16 + s2 / 4]
            else none
          else
            match charSextet alpha c3 with
            | some s3 =>
              (b64DecodeCore alpha rest).map
                (fun bs => (s0 * 4 + s1 / 16) :: (s1 % 16 * 16 + s2 / 4) ::
                  (s2 % 4 * 64 + s3) :: bs)
            | none => none
        | none => none
    | _, _ => none
  | _ => none

/-- `base64.b64encode(data).decode("utf-8")` (standard alphabet). -/
def b64encode (bs : List Nat) : String :=
  String.mk (b64EncodeCore b64StdAlphabet bs)

/-- `base64.urlsafe_b64encode(data)` as a string. -/
def urlsafe_b64encode (bs : List Nat) : String :=
  String.mk (b64EncodeCore b64UrlAlphabet bs)

/-- `base64.urlsafe_b64decode(token)`; `none` models `binascii.Error`. -/
def urlsafe_b64decode (s : String) : Option (List Nat) :=
  b64DecodeCore b64UrlAlphabet s.toList

/-!
## API key codec — `encrypt_api_key` / `decrypt_api_key`

Modelled from the spec: both Python files delegate to
`cryptography.fernet.Fernet` (`cipher_suite.encrypt` /
`cipher_suite.decrypt`), an external library that is not part of this
repository.  Per §4.3 of the spec it is a fixed-key symmetric codec
whose `decrypt` fails with a decoding error on malformed or tampered
tokens; it is modelled here from the published Fernet token layout:

  token = urlsafe_b64( 0x80 ‖ timestamp(8) ‖ IV(16) ‖
                       AES128-CBC(PKCS7-pad(msg)) ‖ HMAC-SHA256(32) )

with the HMAC computed over everything before it.  The AES-128 block
permutation and the HMAC function are abstracted as parameters
(`FernetPrims`); the padding, CBC chaining, token assembly, MAC check
and base64 layer are concrete.
-/

/-- PKCS7-pad a byte list to a multiple of the 16-byte block size. -/
def pkcs7pad (msg : List Nat) : List Nat :=
  let n := 16 - msg.length % 16
  msg ++ List.replicate n n

/-- PKCS7-unpad; `none` models the padding `ValueError` turned into
`InvalidToken`. -/
def pkcs7unpad (msg : List Nat) : Option (List Nat) :=
  if msg.length = 0 ∨ msg.length % 16 ≠ 0 then none
  else
    match msg.getLast? with
    | none => none
    | some n =>
      if 1 ≤ n ∧ n ≤ 16 ∧ n ≤ msg.length ∧
          (msg.drop (msg.length - n)).all (fun b => b = n) then
        some (msg.take (msg.length - n))
      else none

/-- Bytewise xor of two equal-length byte lists. -/
def zipXor (a b : List Nat) : List Nat :=
  List.zipWith Nat.xor a b

/-- Split a byte list into 16-byte blocks (the final block shorter if
the length is not a multiple of 16). -/
def toBlocks : List Nat → List (List Nat)
  | [] => []
  | b :: l => ((b :: l).take 16) :: toBlocks ((b :: l).drop 16)
  termination_by l => l.length
  decreasing_by simp [List.length_drop]; omega

/-- CBC encryption over a block list: each plaintext block is xored
with the previous ciphertext block (initially the IV) and sent through
the block cipher. -/
def cbcEncBlocks (E : List Nat → List Nat) : List Nat → List (List Nat) → List (List Nat)
  | _, [] => []
  | prev, b :: bs =>
    let c := E (zipXor prev b)
    c :: cbcEncBlocks E c bs

/-- CBC decryption over a block list. -/
def cbcDecBlocks (D : List Nat → List Nat) : List Nat → List (List Nat) → List (List Nat)
  | _, [] => []
  | prev, c :: cs => zipXor prev (D c) :: cbcDecBlocks D c cs

/-- The cryptographic primitives and per-token randomness Fernet draws
from outside this repository: the AES-128 block permutation (encrypt /
decrypt directions), HMAC-SHA256 under the signing key, the 8-byte
timestamp and the 16-byte random IV. -/
structure FernetPrims where
  encBlock : List Nat → List Nat
  decBlock : List Nat → List Nat
  hmac : List Nat → List Nat
  timestamp : List Nat
  iv : List Nat

/-- `Fernet.encrypt`: pad, CBC-encrypt, assemble the token, MAC it,
base64-encode. -/
def fernetEncrypt (P : FernetPrims) (msg : List Nat) : String :=
  let padded := pkcs7pad msg
  let ciphertext := (cbcEncBlocks P.encBlock P.iv (toBlocks padded)).flatten
  let basic_parts := 128 :: (P.timestamp ++ P.iv ++ ciphertext)
  let tag := P.hmac basic_parts
  urlsafe_b64encode (basic_parts ++ tag)

/-- The checks and decryption `Fernet.decrypt` performs on the decoded
token bytes: version byte `0x80` first (`not data or data[0] != 0x80`),
enough bytes for the timestamp and the MAC, the HMAC over everything
before the final 32 bytes matching those 32 bytes, the ciphertext
`data[25:-32]` block-aligned; then CBC-decrypt with the IV `data[9:25]`
and unpad.  `none` models the `InvalidToken` exception. -/
def fernetDecryptData (P : FernetPrims) (data : List Nat) : Option (List Nat) :=
  if data.head? ≠ some 128 then none
  else if data.length < 9 then none
  else if data.length < 32 then none
  else if P.hmac (data.take (data.length - 32)) ≠ data.drop (data.length - 32) then
    none
  else if ((data.take (data.length - 32)).drop 25).length % 16 ≠ 0 then none
  else
    pkcs7unpad ((cbcDecBlocks P.decBlock ((data.drop 9).take 16)
      (toBlocks ((data.take (data.length - 32)).drop 25))).flatten)

/-- `Fernet.decrypt` (no TTL, as called by `decrypt_api_key`): base64
decode, then verify and decrypt the token bytes. -/
def fernetDecrypt (P : FernetPrims) (token : String) : Option (List Nat) :=
  match urlsafe_b64decode token with
  | none => none
  | some data => fernetDecryptData P data

/-- Decoded token bytes are well formed when they pass every check
`fernetDecryptData` performs. -/
def wellFormedData (P : FernetPrims) (data : List Nat) : Bool :=
  data.head? = some 128 ∧ 9 ≤ data.length ∧ 32 ≤ data.length ∧
  P.hmac (data.take (data.length - 32)) = data.drop (data.length - 32) ∧
  ((data.take (data.length - 32)).drop 25).length % 16 = 0 ∧
  (pkcs7unpad ((cbcDecBlocks P.decBlock ((data.drop 9).take 16)
    (toBlocks ((data.take (data.length - 32)).drop 25))).flatten)).isSome

/-- A string is a well-formed Fernet token (for primitives `P`) when it
is valid urlsafe base64 and the decoded bytes pass every `Fernet.decrypt`
check: version byte `0x80`, sufficient length, matching MAC,
block-aligned ciphertext, valid PKCS7 padding after decryption. -/
def wellFormedToken (P : FernetPrims) (token : String) : Bool :=
  match urlsafe_b64decode token with
  | none => false
  | some data => wellFormedData P data

/-- `encrypt_api_key(api_key)`: `cipher_suite.encrypt(api_key.encode()).decode()`.
API keys are modelled at the byte level: `.encode()`/`.decode()` are the
UTF-8 codec, the identity on the byte sequences exchanged here. -/
def encrypt_api_key (P : FernetPrims) (api_key : List Nat) : String :=
  fernetEncrypt P api_key

/-- `decrypt_api_key(encrypted_api_key)`:
`cipher_suite.decrypt(encrypted_api_key.encode()).decode()`; `none`
models the `InvalidToken` exception propagating to the caller. -/
def decrypt_api_key (P : FernetPrims) (encrypted_api_key : String) : Option (List Nat) :=
  fernetDecrypt P encrypted_api_key

/-!
## Request handler and upstream clients

The handler and the two provider clients are embedded as functions from
the request fields plus a `World` of oracles (everything the Python code
reads from outside: the upstream reply, `json.loads`, the clock, the
client IP, whether the detail-JSON write raises) to the pair of the HTTP
response (`jsonify` body together with the status code, 200 when the
Python code returns a bare `jsonify(...)`) and the ordered trace of side
effects performed.
-/

/-- Observable side effects of a request. -/
inductive Effect where
  | mkdirEff (path : String)
  | fileWrite (path : String) (data : List Nat)
  | sleepEff (secs : Nat)
  | upstreamPost (provider : String) (model_version : String)
      (api_key : String) (image_base64 : String)
  | jsonWrite (path : String) (content : JVal)
  | logWarn (msg : String)

/-- Whether an effect is a call to an upstream model API. -/
def Effect.isUpstream : Effect → Bool
  | .upstreamPost _ _ _ _ => true
  | _ => false

/-- Whether a trace contacts any upstream model API. -/
def hasUpstream (tr : List Effect) : Bool :=
  tr.any Effect.isUpstream

/-- The `requests.post` reply of the Gemini endpoint: `status_code`,
`text`, and `response.json()` (`none` models a JSON decoding error). -/
structure GeminiReply where
  status_code : Nat
  text : String
  jsonBody : Option JVal

/-- One content item of an Ark (Doubao) reply. -/
structure ArkContentItem where
  text : String

/-- One output item of an Ark reply. -/
structure ArkOutputItem where
  content : List ArkContentItem

/-- The `usage` object of an Ark reply. -/
structure ArkUsage where
  input_tokens : Int
  output_tokens : Int
  total_tokens : Int

/-- The reply of `client.responses.create` (volcengine Ark SDK);
a `None`/absent `output` or `content` is modelled by the empty list. -/
structure ArkResponse where
  output : List ArkOutputItem
  usage : Option ArkUsage
  id : String
  model : String
  status : String

/-- Oracles for everything the request path reads from outside the
program text. -/
structure World where
  parseJson : String → Option JVal   -- json.loads; none = JSONDecodeError
  dumps : JVal → String              -- json.dumps(..., ensure_ascii=False)
  realIp : String                    -- get_real_ip()
  now : String                       -- datetime.now().isoformat()
  excMsg : String                    -- str(e) of an unexpected exception
  writeDetailOk : Bool               -- whether the detail-JSON write succeeds
  proxyOk : Bool                     -- check_proxy_connectivity(...) (V1 only)
  gemini : GeminiReply               -- reply of requests.post to Gemini
  ark : Option ArkResponse           -- reply of the Ark SDK; none = exception

/-- `parse_prompt_response(response_text)`: `json.loads`, falling back
to `{"raw_response": response_text}` on `JSONDecodeError`. -/
def parse_prompt_response (parseJson : String → Option JVal)
    (response_text : String) : JVal :=
  match parseJson response_text with
  | some data => data
  | none => .jobj [("raw_response", .jstr response_text)]

/-- The inner `to_dict` of `extract_token_usage`:
`{d["modality"].lower(): d["tokenCount"] for d in details}`; `none`
models a `KeyError`/`AttributeError` escaping to the caller's
exception handler. -/
def usage_to_dict (details : List JVal) : Option (List (String × JVal)) :=
  details.mapM (fun d => do
    let m ← (d.getKey "modality").bind JVal.asStr
    let c ← d.getKey "tokenCount"
    pure (m.toLower, c))

/-- `extract_token_usage(usage_metadata)`; `none` models an exception
(non-dict metadata, non-list details, malformed detail entries). -/
def extract_token_usage (usage_metadata : JVal) : Option JVal := do
  match usage_metadata with
  | .jobj _ =>
    let pd ← (usage_metadata.getD "promptTokensDetails" (.jarr [])).asArr
    let cd ← (usage_metadata.getD "candidatesTokensDetails" (.jarr [])).asArr
    let prompt_detail ← usage_to_dict pd
    let completion_detail ← usage_to_dict cd
    pure (.jobj [
      ("prompt_tokens", usage_metadata.getD "promptTokenCount" (.jnum 0)),
      ("completion_tokens", usage_metadata.getD "candidatesTokenCount" (.jnum 0)),
      ("total_tokens", usage_metadata.getD "totalTokenCount" (.jnum 0)),
      ("prompt_detail", .jobj prompt_detail),
      ("completion_detail", .jobj completion_detail)])
  | _ => none

/-- Python `os.path.splitext` (posix rules): split at the last dot of
the basename unless every character before it in the basename is itself
a dot. -/
def splitext (p : String) : String × String :=
  let cs := p.toList
  let sepIndex : Int :=
    match cs.reverse.findIdx? (fun a => a == '/') with
    | none => -1
    | some ri => (cs.length : Int) - 1 - ri
  let dotIndex : Int :=
    match cs.reverse.findIdx? (fun a => a == '.') with
    | none => -1
    | some ri => (cs.length : Int) - 1 - ri
  if sepIndex < dotIndex then
    let filenameIndex := (sepIndex + 1).toNat
    let d := dotIndex.toNat
    if ((cs.drop filenameIndex).take (d - filenameIndex)).any (fun a => a ≠ '.') then
      (String.mk (cs.take d), String.mk (cs.drop d))
    else (p, "")
  else (p, "")

/-- The attempt to persist the detail JSON next to the upload
(`os.path.join(save_dir, f"...json")`): on failure only a warning is
logged. -/
def detailEffect (W : World) (save_dir unique_filename : String)
    (content : JVal) : Effect :=
  if W.writeDetailOk then
    .jsonWrite (save_dir ++ "/" ++ (splitext unique_filename).1 ++ ".json") content
  else
    .logWarn "保存提示词详情失败"

/-- Navigation `response_data["candidates"][0]["content"]["parts"][0]["text"]`;
`none` models the `KeyError`/`IndexError` caught by the inner handler. -/
def geminiExtractText (response_data : JVal) : Option JVal :=
  ((((response_data.getKey "candidates").bind (JVal.getIdx · 0)).bind
    (JVal.getKey · "content")).bind (JVal.getKey · "parts")).bind
    (JVal.getIdx · 0) |>.bind (JVal.getKey · "text")

/-- `call_gemini_api` (both files; `checkProxy` is true for
src/promptoon.py, which gates the call on `check_proxy_connectivity`,
and false for src/python/promptoon.py, which has no such gate).  Note
the success body: `success`, `prompt_data`, `raw_response`, `uuid` —
the computed `token_usage` is persisted to the detail JSON only. -/
def call_gemini_api (checkProxy : Bool) (W : World)
    (image_base64 api_key model_version save_dir unique_filename file_uuid : String) :
    (JVal × Nat) × List Effect :=
  if checkProxy ∧ ¬ W.proxyOk then
    ((.jobj [("success", .jbool false), ("error", .jstr "代理服务器无法连接")], 500), [])
  else
    let post : Effect := .upstreamPost "gemini" model_version api_key image_base64
    let response := W.gemini
    if response.status_code ≠ 200 then
      ((.jobj [("success", .jbool false),
               ("error", .jstr ("Gemini API错误: " ++ toString response.status_code)),
               ("details", .jstr response.text)], 500), [post])
    else
      match response.jsonBody with
      | none =>
        ((.jobj [("success", .jbool false), ("error", .jstr W.excMsg)], 500), [post])
      | some response_data =>
        match geminiExtractText response_data with
        | none =>
          ((.jobj [("success", .jbool false), ("error", .jstr "无法解析模型响应"),
                   ("raw_response", response_data)], 500), [post])
        | some t =>
          match t.asStr with
          | none =>
            ((.jobj [("success", .jbool false), ("error", .jstr W.excMsg)], 500), [post])
          | some response_text =>
            match extract_token_usage (response_data.getD "usageMetadata" (.jobj [])) with
            | none =>
              ((.jobj [("success", .jbool false), ("error", .jstr W.excMsg)], 500), [post])
            | some token_usage =>
              let parsed_data := parse_prompt_response W.parseJson response_text
              let detail := detailEffect W save_dir unique_filename
                (.jobj [("ip", .jstr W.realIp), ("prompt_data", parsed_data),
                        ("token_usage", token_usage), ("timestamp", .jstr W.now)])
              ((.jobj [("success", .jbool true), ("prompt_data", parsed_data),
                       ("raw_response", .jstr response_text),
                       ("uuid", .jstr file_uuid)], 200),
               [post, detail])

/-- The hardcoded example response of the stub `call_doubao_api` in
src/promptoon.py. -/
def exampleResponse : JVal := .jobj [
  ("english_prompt", .jobj [
    ("style_medium", .jstr "Digital anime illustration"),
    ("style_details", .jstr "Clean linework, cel-shading, soft color gradients, large expressive glossy eyes"),
    ("scene", .jstr "A young anime girl_character in a playful pose"),
    ("subject", .jstr "Girl with blue hair in twin pigtails, blue eyes, blushing cheeks"),
    ("outfit_props", .jstr "White shirt with blue bows, blue pleated skirt, thigh-high socks"),
    ("background", .jstr "Soft, out-of-focus light-colored background"),
    ("composition", .jstr "High-angle shot, centered composition"),
    ("lighting_color", .jstr "Bright and airy, cool-toned palette"),
    ("special_effects", .jstr "Subtle sweat drop graphic"),
    ("avoid", .jstr "realistic, 3D, dark colors, complex background")]),
  ("chinese_prompt", .jobj [
    ("style_medium", .jstr "数字动漫插画"),
    ("style_details", .jstr "清晰的线稿,赛璐璐着色,柔和的色彩渐变,大而富有表现力的光泽眼睛"),
    ("scene", .jstr "一位年轻的动漫女孩以俏皮的姿态出镜"),
    ("subject", .jstr "蓝色双马尾少女,蓝色眼睛,脸颊泛红"),
    ("outfit_props", .jstr "白色衬衫配蓝色蝴蝶结,蓝色百褶裙,过膝袜"),
    ("background", .jstr "柔和失焦的浅色调背景"),
    ("composition", .jstr "俯视角度,居中构图"),
    ("lighting_color", .jstr "明亮通透,冷色调"),
    ("special_effects", .jstr "细微的汗滴图形"),
    ("avoid", .jstr "写实风格,3D渲染,深色调,复杂背景")]),
  ("full_prompt_en", .jstr "Digital anime illustration, clean linework, cel-shading, soft color gradients, large expressive glossy eyes, young anime girl_character in playful pose, blue twin pigtails, blue eyes, blushing cheeks, white shirt with blue bows, blue pleated skirt, thigh-high socks, soft out-of-focus light-colored background, high-angle shot, centered composition, bright and airy lighting, cool-toned palette, subtle sweat drop graphic"),
  ("full_prompt_cn", .jstr "数字动漫插画风格,清晰线稿和赛璐璐着色,柔和色彩渐变,大而富有表现力的光泽眼睛。画面中是一位年轻的动漫女孩以俏皮姿态出镜,蓝色双马尾发型,蓝色眼睛,脸颊泛红。她身穿白色衬衫配有蓝色蝴蝶结,蓝色百褶裙和过膝袜。背景为柔和失焦的浅色调。采用俯视角度和居中构图,光线明亮通透呈冷色调,带有细微的汗滴图形特效。")]

/-- `call_doubao_api` of src/promptoon.py: a stub that sleeps two
seconds, never contacts any upstream API, writes a detail JSON holding
the hardcoded example (`ip`, `prompt_data`, `timestamp` — no token
usage), and returns the example with `success: true`. -/
def call_doubao_apiV1 (W : World)
    (image_base64 api_key model_version save_dir unique_filename file_uuid : String) :
    (JVal × Nat) × List Effect :=
  let detail := detailEffect W save_dir unique_filename
    (.jobj [("ip", .jstr W.realIp), ("prompt_data", exampleResponse),
            ("timestamp", .jstr W.now)])
  ((.jobj [("success", .jbool true), ("prompt_data", exampleResponse),
           ("raw_response", .jstr (W.dumps exampleResponse)),
           ("uuid", .jstr file_uuid)], 200),
   [.sleepEff 2, detail])

/-- `call_doubao_api` of src/python/promptoon.py: calls the Ark SDK,
extracts `output[0].content[0].text`, parses it as JSON (falling back
to `{"raw_response": text}`), builds `token_usage` with zero defaults,
persists the detail JSON, and returns the seven-field success body. -/
def call_doubao_apiV2 (W : World)
    (image_base64 api_key model_version save_dir unique_filename file_uuid : String) :
    (JVal × Nat) × List Effect :=
  let post : Effect := .upstreamPost "doubao" model_version api_key image_base64
  match W.ark with
  | none => ((.jobj [("success", .jbool false), ("error", .jstr W.excMsg)], 500), [post])
  | some response =>
    match response.output with
    | [] => ((.jobj [("success", .jbool false), ("error", .jstr "API响应结构异常")], 500), [post])
    | o0 :: _ =>
      match o0.content with
      | [] => ((.jobj [("success", .jbool false), ("error", .jstr "API响应结构异常")], 500), [post])
      | c0 :: _ =>
        let response_text := c0.text
        let prompt_data :=
          match W.parseJson response_text with
          | some d => d
          | none => .jobj [("raw_response", .jstr response_text)]
        let token_usage : JVal := .jobj [
          ("prompt_tokens", .jnum (match response.usage with
            | some u => u.input_tokens | none => 0)),
          ("completion_tokens", .jnum (match response.usage with
            | some u => u.output_tokens | none => 0)),
          ("total_tokens", .jnum (match response.usage with
            | some u => u.total_tokens | none => 0)),
          ("prompt_detail", .jobj []),
          ("completion_detail", .jobj [])]
        let detail := detailEffect W save_dir unique_filename
          (.jobj [("ip", .jstr W.realIp), ("prompt_data", prompt_data),
                  ("token_usage", token_usage), ("response_id", .jstr response.id),
                  ("model", .jstr response.model), ("status", .jstr response.status),
                  ("timestamp", .jstr W.now)])
        ((.jobj [("success", .jbool true), ("prompt_data", prompt_data),
                 ("raw_response", .jstr response_text),
                 ("token_usage", token_usage),
                 ("response_id", .jstr response.id),
                 ("model", .jstr response.model),
                 ("uuid", .jstr file_uuid)], 200),
         [post, detail])

/-- The request fields of a `POST /generate_prompt`, plus the oracles
the handler itself consumes.  `decrypt` is `decrypt_api_key` seen from
the handler (kept abstract here; `none` models the exception caught at
the decryption step — the concrete codec is `decrypt_api_key` above). -/
structure ReqEnv (Img : Type) where
  hasImageFile : Bool                -- `"image" in request.files`
  filename : String                  -- `file.filename`
  fileBytes : List Nat               -- `file.read()`
  apiModelField : Option String      -- `request.form.get("api_model")`
  modelVersionField : Option String  -- `request.form.get("model_version")`
  apiKeyField : Option String        -- `request.form.get("api_key")`
  decrypt : String → Option String
  todayStr : String                  -- datetime.now().strftime("%Y-%m-%d")
  fileUuid : String                  -- uuid.uuid4().hex
  codec : ImgCodec Img
  world : World

/-- The `/generate_prompt` handler, shared shape of both files;
the per-file provider clients are passed in.  Returns the response and
the ordered effect trace. -/
def generate_promptCore {Img : Type}
    (geminiCall doubaoCall : World → String → String → String → String →
      String → String → (JVal × Nat) × List Effect)
    (env : ReqEnv Img) : (JVal × Nat) × List Effect :=
  if ¬ env.hasImageFile then
    ((.jobj [("success", .jbool false), ("error", .jstr "没有上传图片")], 400), [])
  else if env.filename = "" then
    ((.jobj [("success", .jbool false), ("error", .jstr "没有选择文件")], 400), [])
  else
    let api_model := env.apiModelField.getD "gemini"
    let model_version := env.modelVersionField.getD "gemini-2.5-flash-lite"
    -- `if not encrypted_api_key:` is true both for an absent field and for ""
    if env.apiKeyField.getD "" = "" then
      ((.jobj [("success", .jbool false), ("error", .jstr "API Key不能为空")], 400), [])
    else
      match env.decrypt (env.apiKeyField.getD "") with
      | none =>
        ((.jobj [("success", .jbool false), ("error", .jstr "API Key解密失败")], 4000), [])
      | some api_key =>
        let image_data := env.fileBytes
        let save_dir := "./uploads" ++ "/" ++ env.todayStr
        let ext := if (splitext env.filename).2 = "" then ".jpg"
                   else (splitext env.filename).2
        let unique_filename := env.fileUuid ++ ext
        let save_path := save_dir ++ "/" ++ unique_filename
        let fsEffects : List Effect := [.mkdirEff save_dir, .fileWrite save_path image_data]
        let sendData := if 3 * 1024 * 1024 < image_data.length then
            compress_image env.codec image_data 524288
          else image_data
        let image_base64 := b64encode sendData
        if api_model = "gemini" then
          let r := geminiCall env.world image_base64 api_key model_version
            save_dir unique_filename env.fileUuid
          (r.1, fsEffects ++ r.2)
        else if api_model = "doubao" then
          let r := doubaoCall env.world image_base64 api_key model_version
            save_dir unique_filename env.fileUuid
          (r.1, fsEffects ++ r.2)
        else
          ((.jobj [("success", .jbool false), ("error", .jstr "不支持的AI模型")], 400),
           fsEffects)

/-- `/generate_prompt` of src/promptoon.py (proxy-gated Gemini client,
stub Doubao client). -/
def generate_promptV1 {Img : Type} (env : ReqEnv Img) : (JVal × Nat) × List Effect :=
  generate_promptCore (call_gemini_api true) call_doubao_apiV1 env

/-- `/generate_prompt` of src/python/promptoon.py (ungated Gemini
client, Ark Doubao client). -/
def generate_promptV2 {Img : Type} (env : ReqEnv Img) : (JVal × Nat) × List Effect :=
  generate_promptCore (call_gemini_api false) call_doubao_apiV2 env

/-!
## Derived path expressions and concrete fixtures
-/

/-- The day-bucketed upload directory `os.path.join(UPLOAD_BASE_DIR, today_str)`. -/
def saveDirOf {Img : Type} (env : ReqEnv Img) : String :=
  "./uploads" ++ "/" ++ env.todayStr

/-- `ext = os.path.splitext(file.filename)[-1] or ".jpg"`. -/
def extOf {Img : Type} (env : ReqEnv Img) : String :=
  if (splitext env.filename).2 = "" then ".jpg" else (splitext env.filename).2

/-- The stored upload path `os.path.join(save_dir, unique_filename)`. -/
def savePathOf {Img : Type} (env : ReqEnv Img) : String :=
  saveDirOf env ++ "/" ++ (env.fileUuid ++ extOf env)

/-- The base64 payload the handler sends upstream: the original bytes,
compressed first (target 0.5 MiB) when they exceed 3 MiB. -/
def upstreamPayloadOf {Img : Type} (env : ReqEnv Img) : String :=
  b64encode (if 3 * 1024 * 1024 < env.fileBytes.length then
    compress_image env.codec env.fileBytes 524288
  else env.fileBytes)

/-- A trivial image codec for concrete test inputs: decoding always
succeeds, re-encoding at quality `q` yields `q * 100` bytes. -/
def unitCodec : ImgCodec Unit :=
  ⟨fun _ => some (), fun _ q => some (List.replicate (q * 100) 0)⟩

/-- A well-shaped Gemini JSON body (one candidate, one part). -/
def okGeminiBody : JVal :=
  .jobj [("candidates", .jarr [.jobj [("content",
    .jobj [("parts", .jarr [.jobj [("text", .jstr "hello")]])])]])]

/-- A concrete world: reachable proxy, 200 Gemini reply carrying
`okGeminiBody`, a one-item Ark reply, `json.loads` always failing. -/
def demoWorld : World where
  parseJson := fun _ => none
  dumps := fun _ => "dump"
  realIp := "1.2.3.4"
  now := "t0"
  excMsg := "boom"
  writeDetailOk := true
  proxyOk := true
  gemini := ⟨200, "okbody", some okGeminiBody⟩
  ark := some ⟨[⟨[⟨"arktext"⟩]⟩], none, "rid", "rmodel", "done"⟩

/-- A concrete request environment over `demoWorld`, with selectable
provider field and decryption oracle. -/
def demoEnv (apiModel : Option String) (dec : String → Option String)
    (w : World) : ReqEnv Unit where
  hasImageFile := true
  filename := "a.jpg"
  fileBytes := [1, 2, 3]
  apiModelField := apiModel
  modelVersionField := none
  apiKeyField := some "tok"
  decrypt := dec
  todayStr := "2026-01-01"
  fileUuid := "abc"
  codec := unitCodec
  world := w

/-- Trivial Fernet primitives: identity block cipher, all-zero MAC,
timestamp and IV — enough to exercise the token layout concretely. -/
def fernetId : FernetPrims :=
  ⟨id, id, fun _ => List.replicate 32 0, List.replicate 8 0, List.replicate 16 0⟩

/-- The primitive assumptions the Fernet roundtrip needs: the block
cipher directions invert each other on 16-byte blocks and preserve
block length and byte range; the MAC is 32 bytes of bytes; timestamp
and IV have their layout sizes. -/
structure FernetGood (P : FernetPrims) : Prop where
  dec_enc : ∀ x : List Nat, x.length = 16 → P.decBlock (P.encBlock x) = x
  enc_len : ∀ x : List Nat, x.length = 16 → (P.encBlock x).length = 16
  enc_bytes : ∀ x : List Nat, x.length = 16 → (∀ b ∈ x, b < 256) →
    ∀ b ∈ P.encBlock x, b < 256
  hmac_len : ∀ x : List Nat, (P.hmac x).length = 32
  hmac_bytes : ∀ x : List Nat, ∀ b ∈ P.hmac x, b < 256
  ts_len : P.timestamp.length = 8
  ts_bytes : ∀ b ∈ P.timestamp, b < 256
  iv_len : P.iv.length = 16
  iv_bytes : ∀ b ∈ P.iv, b < 256

/-!
## Theorems

Auxiliary lemmas first (shared), then one theorem per claim, each with
its witness / counterexample where required.
-/

theorem qualityChain_self_mem (q : Nat) : q ∈ qualityChain q := by
  rw [qualityChain]
  split <;> simp

theorem qualityChain_le (q : Nat) : ∀ x ∈ qualityChain q, x ≤ q := by
  induction q using Nat.strong_induction_on with
  | _ q ih =>
    rw [qualityChain]
    split
    · intro x hx
      rw [List.mem_singleton] at hx
      omega
    · intro x hx
      rcases List.mem_cons.mp hx with h | h
      · omega
      · have := ih (q - 10) (by omega) x h
        omega

theorem compressLoop_spec (encF : Nat → List Nat) (maxB : Nat) :
    ∀ q0 : Nat,
      ∃ q ∈ qualityChain q0,
        compressLoop (fun q => some (encF q)) maxB q0 = some (encF q) ∧
        ((encF q).length ≤ maxB ∨ q ≤ 10) ∧
        ∀ q' ∈ qualityChain q0, q < q' → maxB < (encF q').length ∧ 10 < q' := by
  intro q0
  induction q0 using Nat.strong_induction_on with
  | _ q0 ih =>
    rw [compressLoop]
    by_cases hstop : (encF q0).length ≤ maxB ∨ q0 ≤ 10
    · refine ⟨q0, qualityChain_self_mem q0, ?_, hstop, ?_⟩
      · simp only [if_pos hstop]
      · intro q' hq' hlt
        exact absurd (qualityChain_le q0 q' hq') (by omega)
    · have hstop' := hstop
      push_neg at hstop'
      obtain ⟨hlen, hq10⟩ := hstop'
      obtain ⟨q, hqmem, heq, hcond, hmin⟩ := ih (q0 - 10) (by omega)
      refine ⟨q, ?_, ?_, hcond, ?_⟩
      · rw [qualityChain, if_neg (by omega : ¬ q0 ≤ 10)]
        exact List.mem_cons_of_mem _ hqmem
      · simp only [if_neg hstop]
        exact heq
      · intro q' hq' hlt
        rw [qualityChain, if_neg (by omega : ¬ q0 ≤ 10)] at hq'
        rcases List.mem_cons.mp hq' with rfl | h
        · exact ⟨hlen, hq10⟩
        · exact hmin q' h hlt

/-- C3: for input over `max_size` that decodes as an image, the
normalizer re-encodes along the quality sequence starting at 85 and
stepping down by 10, returning the bytes of the first quality whose
output fits, or of the bottomed-out quality (the `quality <= 10` stop);
hence the output either fits in `max_size` or is the floor encoding. -/
theorem compress_image_over_budget {Img : Type} (codec : ImgCodec Img)
    (img : Img) (image_data : List Nat) (max_size_bytes : Nat)
    (encF : Nat → List Nat)
    (hdec : codec.decode image_data = some img)
    (henc : ∀ q, codec.encodeq img q = some (encF q))
    (hlen : max_size_bytes < image_data.length) :
    ∃ q ∈ qualityChain 85,
      compress_image codec image_data max_size_bytes = encF q ∧
      ((encF q).length ≤ max_size_bytes ∨ q ≤ 10) ∧
      ∀ q' ∈ qualityChain 85, q < q' →
        max_size_bytes < (encF q').length ∧ 10 < q' := by
  have hfun : codec.encodeq img = fun q => some (encF q) := funext henc
  obtain ⟨q, hqmem, heq, hcond, hmin⟩ := compressLoop_spec encF max_size_bytes 85
  refine ⟨q, hqmem, ?_, hcond, hmin⟩
  simp only [compress_image, hdec]
  rw [if_neg (by omega), hfun, heq]

theorem compress_image_over_budget_witness :
    ∃ q ∈ qualityChain 85,
      compress_image unitCodec (List.replicate 200 1) 100 = List.replicate (q * 100) 0 ∧
      ((List.replicate (q * 100) 0).length ≤ 100 ∨ q ≤ 10) ∧
      ∀ q' ∈ qualityChain 85, q < q' →
        100 < (List.replicate (q' * 100) 0).length ∧ 10 < q' :=
  compress_image_over_budget unitCodec () (List.replicate 200 1) 100
    (fun q => List.replicate (q * 100) 0) rfl (fun _ => rfl)
    (by rw [List.length_replicate]; omega)

/-- C4: a byte string no larger than the size threshold is returned
byte-identical, whether or not it decodes as a valid image (a decode
failure takes the exception fallback, which also returns the input). -/
theorem compress_image_small_identity {Img : Type} (codec : ImgCodec Img)
    (image_data : List Nat) (max_size_bytes : Nat)
    (h : image_data.length ≤ max_size_bytes) :
    compress_image codec image_data max_size_bytes = image_data := by
  cases hdec : codec.decode image_data <;>
    simp [compress_image, hdec, h]

theorem compress_image_small_identity_witness :
    ([5, 6, 7] : List Nat).length ≤ 10 ∧
      compress_image unitCodec [5, 6, 7] 10 = [5, 6, 7] ∧
      compress_image (⟨fun _ => none, fun _ _ => none⟩ : ImgCodec Unit) [5, 6, 7] 2
        = [5, 6, 7] :=
  ⟨by simp,
   compress_image_small_identity unitCodec [5, 6, 7] 10 (by simp),
   by decide⟩

/-- C1 counterexample: a request with an image file, a non-empty
filename and a non-empty api_key whose decryption throws is answered by
both handlers with HTTP status 4000 — not a 400-class (400–499)
status, refuting the claim as stated. -/
theorem generate_prompt_decrypt_fail_counterexample :
    (generate_promptV1 (demoEnv none (fun _ => none) demoWorld)).1.2 = 4000 ∧
    (generate_promptV2 (demoEnv none (fun _ => none) demoWorld)).1.2 = 4000 ∧
    ¬(400 ≤ (generate_promptV1 (demoEnv none (fun _ => none) demoWorld)).1.2 ∧
      (generate_promptV1 (demoEnv none (fun _ => none) demoWorld)).1.2 < 500) ∧
    ¬(400 ≤ (generate_promptV2 (demoEnv none (fun _ => none) demoWorld)).1.2 ∧
      (generate_promptV2 (demoEnv none (fun _ => none) demoWorld)).1.2 < 500) := by
  exact ⟨rfl, rfl, by decide, by decide⟩

/-- C1 (amended): for every POST to /generate_prompt carrying an image
file with a non-empty filename and a non-empty api_key form field, if
decrypting the api_key token throws, both handlers fail the whole
request with HTTP status 4000 (a non-standard status outside the 400
class) and the generic body `{success: false, error: "API Key解密失败"}`,
without dispatching to any upstream client. -/
theorem generate_prompt_decrypt_fail {Img : Type} (env : ReqEnv Img) (k : String)
    (h1 : env.hasImageFile = true) (h2 : env.filename ≠ "")
    (h3 : env.apiKeyField = some k) (h4 : k ≠ "")
    (h5 : env.decrypt k = none) :
    generate_promptV1 env =
      ((.jobj [("success", .jbool false), ("error", .jstr "API Key解密失败")], 4000), []) ∧
    generate_promptV2 env =
      ((.jobj [("success", .jbool false), ("error", .jstr "API Key解密失败")], 4000), []) ∧
    hasUpstream (generate_promptV1 env).2 = false ∧
    hasUpstream (generate_promptV2 env).2 = false := by
  have hkey : env.apiKeyField.getD "" = k := by rw [h3]; rfl
  refine ⟨?_, ?_, ?_, ?_⟩ <;>
    simp [generate_promptV1, generate_promptV2, generate_promptCore,
      h1, h2, hkey, h4, h5, hasUpstream]

theorem generate_prompt_decrypt_fail_witness :
    generate_promptV1 (demoEnv none (fun _ => none) demoWorld) =
      ((.jobj [("success", .jbool false), ("error", .jstr "API Key解密失败")], 4000), []) ∧
    generate_promptV2 (demoEnv none (fun _ => none) demoWorld) =
      ((.jobj [("success", .jbool false), ("error", .jstr "API Key解密失败")], 4000), []) ∧
    hasUpstream (generate_promptV1 (demoEnv none (fun _ => none) demoWorld)).2 = false ∧
    hasUpstream (generate_promptV2 (demoEnv none (fun _ => none) demoWorld)).2 = false :=
  generate_prompt_decrypt_fail (demoEnv none (fun _ => none) demoWorld) "tok"
    rfl (by decide) rfl (by decide) rfl

/-- C9: the stub `call_doubao_api` of src/promptoon.py never contacts
any upstream API; for every combination of image bytes, API key and
model version it returns `success: true` with the fixed hardcoded
example as `prompt_data`, and its HTTP response depends on nothing but
the passed uuid (given the same process environment). -/
theorem call_doubao_apiV1_stub (W : World)
    (ib1 ak1 mv1 sd1 uf1 ib2 ak2 mv2 sd2 uf2 fu : String) :
    (call_doubao_apiV1 W ib1 ak1 mv1 sd1 uf1 fu).1 =
      (call_doubao_apiV1 W ib2 ak2 mv2 sd2 uf2 fu).1 ∧
    (call_doubao_apiV1 W ib1 ak1 mv1 sd1 uf1 fu).1 =
      ((.jobj [("success", .jbool true), ("prompt_data", exampleResponse),
               ("raw_response", .jstr (W.dumps exampleResponse)),
               ("uuid", .jstr fu)]), 200) ∧
    hasUpstream (call_doubao_apiV1 W ib1 ak1 mv1 sd1 uf1 fu).2 = false := by
  refine ⟨rfl, rfl, ?_⟩
  cases h : W.writeDetailOk <;>
    simp [call_doubao_apiV1, detailEffect, hasUpstream, Effect.isUpstream, h]

theorem detailEffect_cases (W : World) (sd uf : String) (c : JVal) :
    (∃ p c', detailEffect W sd uf c = .jsonWrite p c') ∨
    ∃ m, detailEffect W sd uf c = .logWarn m := by
  unfold detailEffect
  cases W.writeDetailOk <;> simp

theorem call_gemini_api_trace_shape (cp : Bool) (W : World)
    (ib ak mv sd uf fu : String) :
    (call_gemini_api cp W ib ak mv sd uf fu).2 = [] ∨
    (call_gemini_api cp W ib ak mv sd uf fu).2 = [.upstreamPost "gemini" mv ak ib] ∨
    ∃ c, (call_gemini_api cp W ib ak mv sd uf fu).2 =
      [.upstreamPost "gemini" mv ak ib, detailEffect W sd uf c] := by
  simp only [call_gemini_api]
  repeat' split
  all_goals first
    | exact Or.inl rfl
    | exact Or.inr (Or.inl rfl)
    | exact Or.inr (Or.inr ⟨_, rfl⟩)

theorem call_doubao_apiV2_trace_shape (W : World) (ib ak mv sd uf fu : String) :
    (call_doubao_apiV2 W ib ak mv sd uf fu).2 = [.upstreamPost "doubao" mv ak ib] ∨
    ∃ c, (call_doubao_apiV2 W ib ak mv sd uf fu).2 =
      [.upstreamPost "doubao" mv ak ib, detailEffect W sd uf c] := by
  simp only [call_doubao_apiV2]
  repeat' split
  all_goals first
    | exact Or.inl rfl
    | exact Or.inr ⟨_, rfl⟩

theorem call_doubao_apiV1_trace_shape (W : World) (ib ak mv sd uf fu : String) :
    ∃ c, (call_doubao_apiV1 W ib ak mv sd uf fu).2 =
      [.sleepEff 2, detailEffect W sd uf c] :=
  ⟨_, rfl⟩

/-- How `/generate_prompt` proceeds once file, filename and api_key
validation passed and decryption succeeded: make the day directory,
write the original bytes, then dispatch on the provider field. -/
theorem generate_promptCore_after_decrypt {Img : Type}
    (gc dc : World → String → String → String → String → String → String →
      (JVal × Nat) × List Effect)
    (env : ReqEnv Img) (k ak : String)
    (h1 : env.hasImageFile = true) (h2 : env.filename ≠ "")
    (h3 : env.apiKeyField = some k) (h4 : k ≠ "")
    (h5 : env.decrypt k = some ak) :
    generate_promptCore gc dc env =
      (if env.apiModelField.getD "gemini" = "gemini" then
        ((gc env.world (upstreamPayloadOf env) ak
            (env.modelVersionField.getD "gemini-2.5-flash-lite") (saveDirOf env)
            (env.fileUuid ++ extOf env) env.fileUuid).1,
          Effect.mkdirEff (saveDirOf env) ::
            Effect.fileWrite (savePathOf env) env.fileBytes ::
            (gc env.world (upstreamPayloadOf env) ak
              (env.modelVersionField.getD "gemini-2.5-flash-lite") (saveDirOf env)
              (env.fileUuid ++ extOf env) env.fileUuid).2)
      else if env.apiModelField.getD "gemini" = "doubao" then
        ((dc env.world (upstreamPayloadOf env) ak
            (env.modelVersionField.getD "gemini-2.5-flash-lite") (saveDirOf env)
            (env.fileUuid ++ extOf env) env.fileUuid).1,
          Effect.mkdirEff (saveDirOf env) ::
            Effect.fileWrite (savePathOf env) env.fileBytes ::
            (dc env.world (upstreamPayloadOf env) ak
              (env.modelVersionField.getD "gemini-2.5-flash-lite") (saveDirOf env)
              (env.fileUuid ++ extOf env) env.fileUuid).2)
      else
        ((.jobj [("success", .jbool false), ("error", .jstr "不支持的AI模型")], 400),
         [Effect.mkdirEff (saveDirOf env),
          Effect.fileWrite (savePathOf env) env.fileBytes])) := by
  have hkey : env.apiKeyField.getD "" = k := by rw [h3]; rfl
  unfold generate_promptCore
  rw [if_neg (by simp [h1]), if_neg h2, if_neg (by rw [hkey]; exact h4), hkey, h5]
  rfl

theorem detailEffect_ne_fileWrite (W : World) (sd uf : String) (c : JVal)
    (p : String) (d : List Nat) : detailEffect W sd uf c ≠ .fileWrite p d := by
  unfold detailEffect
  cases W.writeDetailOk <;> simp

theorem detailEffect_ne_upstream (W : World) (sd uf : String) (c : JVal)
    (pr mv ak ib : String) : detailEffect W sd uf c ≠ .upstreamPost pr mv ak ib := by
  unfold detailEffect
  cases W.writeDetailOk <;> simp

/-- The provider-client traces (of any of the three clients) contain no
file write, and every upstream call they contain carries exactly the
base64 payload the client was given. -/
theorem clientTrace_facts (W : World) (sd uf : String) (pr mv ak ib : String)
    (tr : List Effect)
    (hshape : tr = [] ∨ tr = [.upstreamPost pr mv ak ib] ∨
      (∃ c, tr = [.upstreamPost pr mv ak ib, detailEffect W sd uf c]) ∨
      ∃ c, tr = [.sleepEff 2, detailEffect W sd uf c]) :
    (∀ p d, Effect.fileWrite p d ∉ tr) ∧
    (∀ pr' mv' a' pl, Effect.upstreamPost pr' mv' a' pl ∈ tr → pl = ib) := by
  rcases hshape with rfl | rfl | ⟨c, rfl⟩ | ⟨c, rfl⟩
  · exact ⟨by simp, by simp⟩
  · refine ⟨by simp, ?_⟩
    intro pr' mv' a' pl hm
    have h := List.mem_singleton.mp hm
    simp only [Effect.upstreamPost.injEq] at h
    exact h.2.2.2
  · constructor
    · intro p d hm
      rcases List.mem_cons.mp hm with h | hm
      · exact absurd h (by simp)
      · exact absurd (List.mem_singleton.mp hm)
          (Ne.symm (detailEffect_ne_fileWrite W sd uf c p d))
    · intro pr' mv' a' pl hm
      rcases List.mem_cons.mp hm with h | hm
      · simp only [Effect.upstreamPost.injEq] at h
        exact h.2.2.2
      · exact absurd (List.mem_singleton.mp hm)
          (Ne.symm (detailEffect_ne_upstream W sd uf c pr' mv' a' pl))
  · constructor
    · intro p d hm
      rcases List.mem_cons.mp hm with h | hm
      · exact absurd h (by simp)
      · exact absurd (List.mem_singleton.mp hm)
          (Ne.symm (detailEffect_ne_fileWrite W sd uf c p d))
    · intro pr' mv' a' pl hm
      rcases List.mem_cons.mp hm with h | hm
      · exact absurd h (by simp)
      · exact absurd (List.mem_singleton.mp hm)
          (Ne.symm (detailEffect_ne_upstream W sd uf c pr' mv' a' pl))

/-- Facts about the handler trace `mkdir :: fileWrite :: clientTrace`. -/
theorem write_then_client_trace (dirP fileP : String) (bytes : List Nat)
    (ib : String) (tr : List Effect)
    (hnf : ∀ p d, Effect.fileWrite p d ∉ tr)
    (hup : ∀ pr mv a pl, Effect.upstreamPost pr mv a pl ∈ tr → pl = ib) :
    Effect.fileWrite fileP bytes ∈
      (Effect.mkdirEff dirP :: Effect.fileWrite fileP bytes :: tr) ∧
    (∀ p d, Effect.fileWrite p d ∈
      (Effect.mkdirEff dirP :: Effect.fileWrite fileP bytes :: tr) → d = bytes) ∧
    (∀ pr mv a pl, Effect.upstreamPost pr mv a pl ∈
      (Effect.mkdirEff dirP :: Effect.fileWrite fileP bytes :: tr) → pl = ib) := by
  refine ⟨by simp, ?_, ?_⟩
  · intro p d hm
    rcases List.mem_cons.mp hm with h | hm
    · exact absurd h (by simp)
    rcases List.mem_cons.mp hm with h | hm
    · simp only [Effect.fileWrite.injEq] at h
      exact h.2
    · exact absurd hm (hnf p d)
  · intro pr mv a pl hm
    rcases List.mem_cons.mp hm with h | hm
    · exact absurd h (by simp)
    rcases List.mem_cons.mp hm with h | hm
    · exact absurd h (by simp)
    · exact hup pr mv a pl hm

/-- C6: for every request that reaches the persistence step, the bytes
written to the upload file are exactly the bytes received from the
client, and every payload sent upstream is the base64 of the (possibly
compressed) bytes — compression never touches the archived original. -/
theorem generate_prompt_archives_original {Img : Type} (env : ReqEnv Img)
    (k ak : String)
    (h1 : env.hasImageFile = true) (h2 : env.filename ≠ "")
    (h3 : env.apiKeyField = some k) (h4 : k ≠ "")
    (h5 : env.decrypt k = some ak) :
    (Effect.fileWrite (savePathOf env) env.fileBytes ∈ (generate_promptV1 env).2 ∧
     (∀ p d, Effect.fileWrite p d ∈ (generate_promptV1 env).2 → d = env.fileBytes) ∧
     (∀ pr mv a pl, Effect.upstreamPost pr mv a pl ∈ (generate_promptV1 env).2 →
        pl = upstreamPayloadOf env)) ∧
    (Effect.fileWrite (savePathOf env) env.fileBytes ∈ (generate_promptV2 env).2 ∧
     (∀ p d, Effect.fileWrite p d ∈ (generate_promptV2 env).2 → d = env.fileBytes) ∧
     (∀ pr mv a pl, Effect.upstreamPost pr mv a pl ∈ (generate_promptV2 env).2 →
        pl = upstreamPayloadOf env)) := by
  unfold generate_promptV1 generate_promptV2
  rw [generate_promptCore_after_decrypt (call_gemini_api true) call_doubao_apiV1
        env k ak h1 h2 h3 h4 h5,
      generate_promptCore_after_decrypt (call_gemini_api false) call_doubao_apiV2
        env k ak h1 h2 h3 h4 h5]
  by_cases hm1 : env.apiModelField.getD "gemini" = "gemini"
  · simp only [if_pos hm1]
    obtain ⟨hf1, hu1⟩ := clientTrace_facts env.world (saveDirOf env)
      (env.fileUuid ++ extOf env) "gemini"
      (env.modelVersionField.getD "gemini-2.5-flash-lite") ak (upstreamPayloadOf env) _
      ((call_gemini_api_trace_shape true env.world (upstreamPayloadOf env) ak
        (env.modelVersionField.getD "gemini-2.5-flash-lite") (saveDirOf env)
        (env.fileUuid ++ extOf env) env.fileUuid).imp id (Or.imp id Or.inl))
    obtain ⟨hf2, hu2⟩ := clientTrace_facts env.world (saveDirOf env)
      (env.fileUuid ++ extOf env) "gemini"
      (env.modelVersionField.getD "gemini-2.5-flash-lite") ak (upstreamPayloadOf env) _
      ((call_gemini_api_trace_shape false env.world (upstreamPayloadOf env) ak
        (env.modelVersionField.getD "gemini-2.5-flash-lite") (saveDirOf env)
        (env.fileUuid ++ extOf env) env.fileUuid).imp id (Or.imp id Or.inl))
    exact ⟨write_then_client_trace _ _ _ _ _ hf1 hu1,
           write_then_client_trace _ _ _ _ _ hf2 hu2⟩
  · by_cases hm2 : env.apiModelField.getD "gemini" = "doubao"
    · simp only [if_neg hm1, if_pos hm2]
      obtain ⟨hf1, hu1⟩ := clientTrace_facts env.world (saveDirOf env)
        (env.fileUuid ++ extOf env) "doubao"
        (env.modelVersionField.getD "gemini-2.5-flash-lite") ak (upstreamPayloadOf env) _
        (Or.inr (Or.inr (Or.inr (call_doubao_apiV1_trace_shape env.world
          (upstreamPayloadOf env) ak
          (env.modelVersionField.getD "gemini-2.5-flash-lite") (saveDirOf env)
          (env.fileUuid ++ extOf env) env.fileUuid))))
      obtain ⟨hf2, hu2⟩ := clientTrace_facts env.world (saveDirOf env)
        (env.fileUuid ++ extOf env) "doubao"
        (env.modelVersionField.getD "gemini-2.5-flash-lite") ak (upstreamPayloadOf env) _
        (Or.inr ((call_doubao_apiV2_trace_shape env.world (upstreamPayloadOf env) ak
          (env.modelVersionField.getD "gemini-2.5-flash-lite") (saveDirOf env)
          (env.fileUuid ++ extOf env) env.fileUuid).imp id Or.inl))
      exact ⟨write_then_client_trace _ _ _ _ _ hf1 hu1,
             write_then_client_trace _ _ _ _ _ hf2 hu2⟩
    · simp only [if_neg hm1, if_neg hm2]
      have hempty : ∀ p d, Effect.fileWrite p d ∉ ([] : List Effect) := by simp
      have hempty2 : ∀ pr mv a pl,
          Effect.upstreamPost pr mv a pl ∈ ([] : List Effect) →
            pl = upstreamPayloadOf env := by simp
      exact ⟨write_then_client_trace _ _ _ _ _ hempty hempty2,
             write_then_client_trace _ _ _ _ _ hempty hempty2⟩

theorem generate_prompt_archives_original_witness :
    (Effect.fileWrite (savePathOf (demoEnv (some "gemini") (fun _ => some "ak") demoWorld))
        (demoEnv (some "gemini") (fun _ => some "ak") demoWorld).fileBytes ∈
        (generate_promptV1 (demoEnv (some "gemini") (fun _ => some "ak") demoWorld)).2 ∧
     (∀ p d, Effect.fileWrite p d ∈
        (generate_promptV1 (demoEnv (some "gemini") (fun _ => some "ak") demoWorld)).2 →
        d = (demoEnv (some "gemini") (fun _ => some "ak") demoWorld).fileBytes) ∧
     (∀ pr mv a pl, Effect.upstreamPost pr mv a pl ∈
        (generate_promptV1 (demoEnv (some "gemini") (fun _ => some "ak") demoWorld)).2 →
        pl = upstreamPayloadOf (demoEnv (some "gemini") (fun _ => some "ak") demoWorld))) ∧
    (Effect.fileWrite (savePathOf (demoEnv (some "gemini") (fun _ => some "ak") demoWorld))
        (demoEnv (some "gemini") (fun _ => some "ak") demoWorld).fileBytes ∈
        (generate_promptV2 (demoEnv (some "gemini") (fun _ => some "ak") demoWorld)).2 ∧
     (∀ p d, Effect.fileWrite p d ∈
        (generate_promptV2 (demoEnv (some "gemini") (fun _ => some "ak") demoWorld)).2 →
        d = (demoEnv (some "gemini") (fun _ => some "ak") demoWorld).fileBytes) ∧
     (∀ pr mv a pl, Effect.upstreamPost pr mv a pl ∈
        (generate_promptV2 (demoEnv (some "gemini") (fun _ => some "ak") demoWorld)).2 →
        pl = upstreamPayloadOf (demoEnv (some "gemini") (fun _ => some "ak") demoWorld))) :=
  generate_prompt_archives_original (demoEnv (some "gemini") (fun _ => some "ak") demoWorld)
    "tok" "ak" rfl (by decide) rfl (by decide) rfl

/-- C10: once file, filename and api_key validation and decryption
pass, the original upload bytes are written to disk before any provider
dispatch (the trace starts with the directory creation and the file
write); in particular a request then rejected with 400 for an
unsupported api_model still has the stored upload file written — the
handler does not undo local state on error. -/
theorem generate_prompt_write_before_dispatch {Img : Type} (env : ReqEnv Img)
    (k ak : String)
    (h1 : env.hasImageFile = true) (h2 : env.filename ≠ "")
    (h3 : env.apiKeyField = some k) (h4 : k ≠ "")
    (h5 : env.decrypt k = some ak) :
    (∃ rest, (generate_promptV1 env).2 =
      Effect.mkdirEff (saveDirOf env) ::
        Effect.fileWrite (savePathOf env) env.fileBytes :: rest) ∧
    (∃ rest, (generate_promptV2 env).2 =
      Effect.mkdirEff (saveDirOf env) ::
        Effect.fileWrite (savePathOf env) env.fileBytes :: rest) ∧
    (env.apiModelField.getD "gemini" ≠ "gemini" →
     env.apiModelField.getD "gemini" ≠ "doubao" →
     generate_promptV1 env =
       ((.jobj [("success", .jbool false), ("error", .jstr "不支持的AI模型")], 400),
        [Effect.mkdirEff (saveDirOf env),
         Effect.fileWrite (savePathOf env) env.fileBytes]) ∧
     generate_promptV2 env =
       ((.jobj [("success", .jbool false), ("error", .jstr "不支持的AI模型")], 400),
        [Effect.mkdirEff (saveDirOf env),
         Effect.fileWrite (savePathOf env) env.fileBytes])) := by
  unfold generate_promptV1 generate_promptV2
  rw [generate_promptCore_after_decrypt (call_gemini_api true) call_doubao_apiV1
        env k ak h1 h2 h3 h4 h5,
      generate_promptCore_after_decrypt (call_gemini_api false) call_doubao_apiV2
        env k ak h1 h2 h3 h4 h5]
  refine ⟨?_, ?_, ?_⟩
  · by_cases hm1 : env.apiModelField.getD "gemini" = "gemini"
    · simp only [if_pos hm1]
      exact ⟨_, rfl⟩
    · by_cases hm2 : env.apiModelField.getD "gemini" = "doubao"
      · simp only [if_neg hm1, if_pos hm2]
        exact ⟨_, rfl⟩
      · simp only [if_neg hm1, if_neg hm2]
        exact ⟨[], rfl⟩
  · by_cases hm1 : env.apiModelField.getD "gemini" = "gemini"
    · simp only [if_pos hm1]
      exact ⟨_, rfl⟩
    · by_cases hm2 : env.apiModelField.getD "gemini" = "doubao"
      · simp only [if_neg hm1, if_pos hm2]
        exact ⟨_, rfl⟩
      · simp only [if_neg hm1, if_neg hm2]
        exact ⟨[], rfl⟩
  · intro hg hd
    simp only [if_neg hg, if_neg hd]
    refine ⟨?_, ?_⟩ <;> first | rfl | trivial

theorem generate_prompt_write_before_dispatch_witness :
    (∃ rest, (generate_promptV1 (demoEnv (some "qwen") (fun _ => some "ak") demoWorld)).2 =
      Effect.mkdirEff (saveDirOf (demoEnv (some "qwen") (fun _ => some "ak") demoWorld)) ::
        Effect.fileWrite (savePathOf (demoEnv (some "qwen") (fun _ => some "ak") demoWorld))
          (demoEnv (some "qwen") (fun _ => some "ak") demoWorld).fileBytes :: rest) ∧
    (∃ rest, (generate_promptV2 (demoEnv (some "qwen") (fun _ => some "ak") demoWorld)).2 =
      Effect.mkdirEff (saveDirOf (demoEnv (some "qwen") (fun _ => some "ak") demoWorld)) ::
        Effect.fileWrite (savePathOf (demoEnv (some "qwen") (fun _ => some "ak") demoWorld))
          (demoEnv (some "qwen") (fun _ => some "ak") demoWorld).fileBytes :: rest) ∧
    ((demoEnv (some "qwen") (fun _ => some "ak") demoWorld).apiModelField.getD "gemini" ≠ "gemini" →
     (demoEnv (some "qwen") (fun _ => some "ak") demoWorld).apiModelField.getD "gemini" ≠ "doubao" →
     generate_promptV1 (demoEnv (some "qwen") (fun _ => some "ak") demoWorld) =
       ((.jobj [("success", .jbool false), ("error", .jstr "不支持的AI模型")], 400),
        [Effect.mkdirEff (saveDirOf (demoEnv (some "qwen") (fun _ => some "ak") demoWorld)),
         Effect.fileWrite (savePathOf (demoEnv (some "qwen") (fun _ => some "ak") demoWorld))
           (demoEnv (some "qwen") (fun _ => some "ak") demoWorld).fileBytes]) ∧
     generate_promptV2 (demoEnv (some "qwen") (fun _ => some "ak") demoWorld) =
       ((.jobj [("success", .jbool false), ("error", .jstr "不支持的AI模型")], 400),
        [Effect.mkdirEff (saveDirOf (demoEnv (some "qwen") (fun _ => some "ak") demoWorld)),
         Effect.fileWrite (savePathOf (demoEnv (some "qwen") (fun _ => some "ak") demoWorld))
           (demoEnv (some "qwen") (fun _ => some "ak") demoWorld).fileBytes])) :=
  generate_prompt_write_before_dispatch
    (demoEnv (some "qwen") (fun _ => some "ak") demoWorld)
    "tok" "ak" rfl (by decide) rfl (by decide) rfl

theorem call_gemini_api_resp_detail (cp : Bool) (W : World) (b : Bool)
    (ib ak mv sd uf fu : String) :
    (call_gemini_api cp {W with writeDetailOk := b} ib ak mv sd uf fu).1 =
    (call_gemini_api cp W ib ak mv sd uf fu).1 := by
  obtain ⟨pj, dm, ip, nw, em, wok, pok, gem, arko⟩ := W
  obtain ⟨sc, tx, jb⟩ := gem
  simp only [call_gemini_api]
  by_cases h1 : cp ∧ ¬pok
  · simp [h1]
  · simp only [if_neg h1]
    by_cases h2 : sc ≠ 200
    · simp [h2]
    · simp only [if_neg h2]
      cases jb with
      | none => rfl
      | some rd =>
        cases hx : geminiExtractText rd with
        | none => simp [hx]
        | some t =>
          simp only [hx]
          cases ht : t.asStr with
          | none => simp [ht]
          | some rt =>
            simp only [ht]
            cases hu : extract_token_usage (rd.getD "usageMetadata" (.jobj [])) with
            | none => simp [hu]
            | some tu => simp [hu]

theorem call_doubao_apiV2_resp_detail (W : World) (b : Bool)
    (ib ak mv sd uf fu : String) :
    (call_doubao_apiV2 {W with writeDetailOk := b} ib ak mv sd uf fu).1 =
    (call_doubao_apiV2 W ib ak mv sd uf fu).1 := by
  obtain ⟨pj, dm, ip, nw, em, wok, pok, gem, arko⟩ := W
  simp only [call_doubao_apiV2]
  cases arko with
  | none => rfl
  | some resp =>
    obtain ⟨out, us, idv, mdl, st⟩ := resp
    cases out with
    | nil => rfl
    | cons o0 rest =>
      obtain ⟨cnt⟩ := o0
      cases cnt with
      | nil => rfl
      | cons c0 crest => rfl

/-- C8: for a request whose upstream call succeeded, a failure to write
the result JSON artifact never changes the HTTP response: with the
write failing, the caller receives exactly the response of the
successful-write run — still the success response. -/
theorem persistence_failure_keeps_response (cp : Bool) (W : World)
    (ib ak mv sd uf fu : String)
    (hg : (call_gemini_api cp W ib ak mv sd uf fu).1.2 = 200)
    (hd : (call_doubao_apiV2 W ib ak mv sd uf fu).1.2 = 200) :
    (call_gemini_api cp {W with writeDetailOk := false} ib ak mv sd uf fu).1 =
      (call_gemini_api cp W ib ak mv sd uf fu).1 ∧
    (call_doubao_apiV2 {W with writeDetailOk := false} ib ak mv sd uf fu).1 =
      (call_doubao_apiV2 W ib ak mv sd uf fu).1 ∧
    (call_gemini_api cp {W with writeDetailOk := false} ib ak mv sd uf fu).1.2 = 200 ∧
    (call_doubao_apiV2 {W with writeDetailOk := false} ib ak mv sd uf fu).1.2 = 200 := by
  refine ⟨call_gemini_api_resp_detail cp W false ib ak mv sd uf fu,
          call_doubao_apiV2_resp_detail W false ib ak mv sd uf fu, ?_, ?_⟩
  · rw [call_gemini_api_resp_detail cp W false ib ak mv sd uf fu]
    exact hg
  · rw [call_doubao_apiV2_resp_detail W false ib ak mv sd uf fu]
    exact hd

theorem persistence_failure_keeps_response_witness :
    (call_gemini_api true {demoWorld with writeDetailOk := false}
        "ib" "ak" "mv" "sd" "u.jpg" "fu").1 =
      (call_gemini_api true demoWorld "ib" "ak" "mv" "sd" "u.jpg" "fu").1 ∧
    (call_doubao_apiV2 {demoWorld with writeDetailOk := false}
        "ib" "ak" "mv" "sd" "u.jpg" "fu").1 =
      (call_doubao_apiV2 demoWorld "ib" "ak" "mv" "sd" "u.jpg" "fu").1 ∧
    (call_gemini_api true {demoWorld with writeDetailOk := false}
        "ib" "ak" "mv" "sd" "u.jpg" "fu").1.2 = 200 ∧
    (call_doubao_apiV2 {demoWorld with writeDetailOk := false}
        "ib" "ak" "mv" "sd" "u.jpg" "fu").1.2 = 200 :=
  persistence_failure_keeps_response true demoWorld "ib" "ak" "mv" "sd" "u.jpg" "fu"
    rfl rfl

theorem call_gemini_api_success_form (cp : Bool) (W : World)
    (ib ak mv sd uf fu : String)
    (hg : (call_gemini_api cp W ib ak mv sd uf fu).1.2 = 200) :
    ∃ pd rt, (call_gemini_api cp W ib ak mv sd uf fu).1 =
      (.jobj [("success", .jbool true), ("prompt_data", pd),
              ("raw_response", .jstr rt), ("uuid", .jstr fu)], 200) := by
  obtain ⟨pj, dm, ip, nw, em, wok, pok, gem, arko⟩ := W
  obtain ⟨sc, tx, jb⟩ := gem
  simp only [call_gemini_api] at hg ⊢
  by_cases h1 : cp ∧ ¬pok
  · rw [if_pos h1] at hg
    simp at hg
  · rw [if_neg h1] at hg ⊢
    by_cases h2 : sc ≠ 200
    · rw [if_pos h2] at hg
      simp at hg
    · rw [if_neg h2] at hg ⊢
      cases jb with
      | none => simp at hg
      | some rd =>
        cases hx : geminiExtractText rd with
        | none => simp [hx] at hg
        | some t =>
          cases ht : t.asStr with
          | none => simp [hx, ht] at hg
          | some rt =>
            cases hu : extract_token_usage (rd.getD "usageMetadata" (.jobj [])) with
            | none => simp [hx, ht, hu] at hg
            | some tu =>
              refine ⟨parse_prompt_response pj rt, rt, ?_⟩
              simp only [hx, ht, hu]

theorem call_doubao_apiV2_success_form (W : World) (ib ak mv sd uf fu : String)
    (hd : (call_doubao_apiV2 W ib ak mv sd uf fu).1.2 = 200) :
    ∃ pd rt tu rid mdl, (call_doubao_apiV2 W ib ak mv sd uf fu).1 =
      (.jobj [("success", .jbool true), ("prompt_data", pd),
              ("raw_response", .jstr rt), ("token_usage", tu),
              ("response_id", .jstr rid), ("model", .jstr mdl),
              ("uuid", .jstr fu)], 200) := by
  obtain ⟨pj, dm, ip, nw, em, wok, pok, gem, arko⟩ := W
  simp only [call_doubao_apiV2] at hd ⊢
  cases arko with
  | none => simp at hd
  | some resp =>
    obtain ⟨out, us, idv, mdl, st⟩ := resp
    cases out with
    | nil => simp at hd
    | cons o0 rest =>
      obtain ⟨cnt⟩ := o0
      cases cnt with
      | nil => simp at hd
      | cons c0 crest => exact ⟨_, _, _, _, _, rfl⟩

/-- C2 counterexample: a concrete successful Gemini call (HTTP 200
reply, well-formed candidate text) whose returned body says
`success: true` yet carries no `token_usage` key — refuting "all five
fields on every successful upstream call". -/
theorem success_body_counterexample :
    (call_gemini_api true demoWorld "ib" "ak" "mv" "sd" "u.jpg" "fu").1.2 = 200 ∧
    ((call_gemini_api true demoWorld "ib" "ak" "mv" "sd" "u.jpg" "fu").1.1.getKey
      "success" = some (.jbool true)) ∧
    ((call_gemini_api true demoWorld "ib" "ak" "mv" "sd" "u.jpg" "fu").1.1.hasKey
      "token_usage" = false) :=
  ⟨rfl, rfl, rfl⟩

/-- C2 (amended): on a successful upstream call, the Gemini client
(both files) and the stub Doubao client of src/promptoon.py return the
four fields `success`, `prompt_data`, `raw_response`, `uuid` — without
`token_usage` — while the Doubao client of src/python/promptoon.py
returns all five claimed fields (plus `response_id` and `model`). -/
theorem success_body_fields (cp : Bool) (W : World) (ib ak mv sd uf fu : String)
    (hg : (call_gemini_api cp W ib ak mv sd uf fu).1.2 = 200)
    (hd : (call_doubao_apiV2 W ib ak mv sd uf fu).1.2 = 200) :
    (call_gemini_api cp W ib ak mv sd uf fu).1.1.keys =
      ["success", "prompt_data", "raw_response", "uuid"] ∧
    (call_doubao_apiV1 W ib ak mv sd uf fu).1.1.keys =
      ["success", "prompt_data", "raw_response", "uuid"] ∧
    (call_doubao_apiV2 W ib ak mv sd uf fu).1.1.keys =
      ["success", "prompt_data", "raw_response", "token_usage",
       "response_id", "model", "uuid"] := by
  obtain ⟨pd, rt, hform⟩ := call_gemini_api_success_form cp W ib ak mv sd uf fu hg
  obtain ⟨pd2, rt2, tu2, rid2, mdl2, hform2⟩ :=
    call_doubao_apiV2_success_form W ib ak mv sd uf fu hd
  refine ⟨?_, rfl, ?_⟩
  · have hb : (call_gemini_api cp W ib ak mv sd uf fu).1.1 =
        .jobj [("success", .jbool true), ("prompt_data", pd),
               ("raw_response", .jstr rt), ("uuid", .jstr fu)] := by
      rw [hform]
    rw [hb]
    rfl
  · have hb : (call_doubao_apiV2 W ib ak mv sd uf fu).1.1 =
        .jobj [("success", .jbool true), ("prompt_data", pd2),
               ("raw_response", .jstr rt2), ("token_usage", tu2),
               ("response_id", .jstr rid2), ("model", .jstr mdl2),
               ("uuid", .jstr fu)] := by
      rw [hform2]
    rw [hb]
    rfl

theorem success_body_fields_witness :
    (call_gemini_api true demoWorld "ib" "ak" "mv" "sd" "u.jpg" "fu").1.1.keys =
      ["success", "prompt_data", "raw_response", "uuid"] ∧
    (call_doubao_apiV1 demoWorld "ib" "ak" "mv" "sd" "u.jpg" "fu").1.1.keys =
      ["success", "prompt_data", "raw_response", "uuid"] ∧
    (call_doubao_apiV2 demoWorld "ib" "ak" "mv" "sd" "u.jpg" "fu").1.1.keys =
      ["success", "prompt_data", "raw_response", "token_usage",
       "response_id", "model", "uuid"] :=
  success_body_fields true demoWorld "ib" "ak" "mv" "sd" "u.jpg" "fu" rfl rfl

/-- C7: when the extracted upstream response text is not valid JSON,
generate_prompt still returns success: true and prompt_data equal to
the one-key object {raw_response: <the raw text>} — shown for the
Gemini path of src/promptoon.py (via parse_prompt_response) and the
Doubao path of src/python/promptoon.py (inline fallback). -/
theorem generate_prompt_nonjson_fallback {Img : Type}
    (env1 env2 : ReqEnv Img) (k1 ak1 k2 ak2 t : String) (rd tu : JVal)
    (resp : ArkResponse) (o0 : ArkOutputItem) (c0 : ArkContentItem)
    (os : List ArkOutputItem) (cs : List ArkContentItem)
    (h11 : env1.hasImageFile = true) (h12 : env1.filename ≠ "")
    (h13 : env1.apiKeyField = some k1) (h14 : k1 ≠ "")
    (h15 : env1.decrypt k1 = some ak1)
    (hm1 : env1.apiModelField.getD "gemini" = "gemini")
    (hproxy : env1.world.proxyOk = true)
    (hstatus : env1.world.gemini.status_code = 200)
    (hjson : env1.world.gemini.jsonBody = some rd)
    (hx : geminiExtractText rd = some (.jstr t))
    (hu : extract_token_usage (rd.getD "usageMetadata" (.jobj [])) = some tu)
    (hparse1 : env1.world.parseJson t = none)
    (h21 : env2.hasImageFile = true) (h22 : env2.filename ≠ "")
    (h23 : env2.apiKeyField = some k2) (h24 : k2 ≠ "")
    (h25 : env2.decrypt k2 = some ak2)
    (hm2 : env2.apiModelField.getD "gemini" = "doubao")
    (hark : env2.world.ark = some resp)
    (hout : resp.output = o0 :: os)
    (hcnt : o0.content = c0 :: cs)
    (hparse2 : env2.world.parseJson c0.text = none) :
    ((generate_promptV1 env1).1.1.getKey "success" = some (.jbool true) ∧
     (generate_promptV1 env1).1.1.getKey "prompt_data" =
       some (.jobj [("raw_response", .jstr t)])) ∧
    ((generate_promptV2 env2).1.1.getKey "success" = some (.jbool true) ∧
     (generate_promptV2 env2).1.1.getKey "prompt_data" =
       some (.jobj [("raw_response", .jstr c0.text)])) := by
  constructor
  · unfold generate_promptV1
    rw [generate_promptCore_after_decrypt (call_gemini_api true) call_doubao_apiV1
          env1 k1 ak1 h11 h12 h13 h14 h15, if_pos hm1]
    simp [call_gemini_api, hproxy, hstatus, hjson, hx, hu, parse_prompt_response,
      hparse1, JVal.getKey, JVal.asStr]
  · unfold generate_promptV2
    rw [generate_promptCore_after_decrypt (call_gemini_api false) call_doubao_apiV2
          env2 k2 ak2 h21 h22 h23 h24 h25,
        if_neg (by rw [hm2]; decide), if_pos hm2]
    simp [call_doubao_apiV2, hark, hout, hcnt, hparse2, JVal.getKey]

theorem generate_prompt_nonjson_fallback_witness :
    ((generate_promptV1 (demoEnv (some "gemini") (fun _ => some "ak") demoWorld)).1.1.getKey
        "success" = some (.jbool true) ∧
     (generate_promptV1 (demoEnv (some "gemini") (fun _ => some "ak") demoWorld)).1.1.getKey
        "prompt_data" = some (.jobj [("raw_response", .jstr "hello")])) ∧
    ((generate_promptV2 (demoEnv (some "doubao") (fun _ => some "ak") demoWorld)).1.1.getKey
        "success" = some (.jbool true) ∧
     (generate_promptV2 (demoEnv (some "doubao") (fun _ => some "ak") demoWorld)).1.1.getKey
        "prompt_data" =
       some (.jobj [("raw_response",
         .jstr (ArkContentItem.mk "arktext").text)])) :=
  generate_prompt_nonjson_fallback
    (demoEnv (some "gemini") (fun _ => some "ak") demoWorld)
    (demoEnv (some "doubao") (fun _ => some "ak") demoWorld)
    "tok" "ak" "tok" "ak" "hello" okGeminiBody
    (.jobj [("prompt_tokens", .jnum 0), ("completion_tokens", .jnum 0),
            ("total_tokens", .jnum 0), ("prompt_detail", .jobj []),
            ("completion_detail", .jobj [])])
    ⟨[⟨[⟨"arktext"⟩]⟩], none, "rid", "rmodel", "done"⟩
    ⟨[⟨"arktext"⟩]⟩ ⟨"arktext"⟩ [] []
    rfl (by decide) rfl (by decide) rfl rfl rfl rfl rfl rfl rfl rfl
    rfl (by decide) rfl (by decide) rfl rfl rfl rfl rfl rfl

theorem charSextet_sextetChar_url :
    ∀ n, n < 64 → charSextet b64UrlAlphabet (sextetChar b64UrlAlphabet n) = some n := by
  decide

theorem sextetChar_ne_pad_url :
    ∀ n, n < 64 → sextetChar b64UrlAlphabet n ≠ '=' := by
  decide

theorem b64_roundtrip_aux (alpha : List Char)
    (hinv : ∀ n, n < 64 → charSextet alpha (sextetChar alpha n) = some n)
    (hne : ∀ n, n < 64 → sextetChar alpha n ≠ '=') :
    ∀ bs : List Nat, (∀ b ∈ bs, b < 256) →
      b64DecodeCore alpha (b64EncodeCore alpha bs) = some bs
  | [], _ => rfl
  | [b0], hb => by
    have h0 : b0 < 256 := hb b0 (by simp)
    have e0 := hinv (b0 / 4) (by omega)
    have e1 := hinv (b0 % 4 * 16) (by omega)
    simp [b64EncodeCore, b64DecodeCore, e0, e1]
    omega
  | [b0, b1], hb => by
    have h0 : b0 < 256 := hb b0 (by simp)
    have h1 : b1 < 256 := hb b1 (by simp)
    have e0 := hinv (b0 / 4) (by omega)
    have e1 := hinv (b0 % 4 * 16 + b1 / 16) (by omega)
    have e2 := hinv (b1 % 16 * 4) (by omega)
    have n2 := hne (b1 % 16 * 4) (by omega)
    simp [b64EncodeCore, b64DecodeCore, e0, e1, e2, n2]
    omega
  | b0 :: b1 :: b2 :: rest, hb => by
    have h0 : b0 < 256 := hb b0 (by simp)
    have h1 : b1 < 256 := hb b1 (by simp)
    have h2 : b2 < 256 := hb b2 (by simp)
    have IH := b64_roundtrip_aux alpha hinv hne rest
      (fun b hbm => hb b (by simp [hbm]))
    have e0 := hinv (b0 / 4) (by omega)
    have e1 := hinv (b0 % 4 * 16 + b1 / 16) (by omega)
    have e2 := hinv (b1 % 16 * 4 + b2 / 64) (by omega)
    have e3 := hinv (b2 % 64) (by omega)
    have n2 := hne (b1 % 16 * 4 + b2 / 64) (by omega)
    have n3 := hne (b2 % 64) (by omega)
    simp [b64EncodeCore, b64DecodeCore, e0, e1, e2, e3, n2, n3, IH]
    omega

theorem urlsafe_b64_roundtrip (bs : List Nat) (hb : ∀ b ∈ bs, b < 256) :
    urlsafe_b64decode (urlsafe_b64encode bs) = some bs :=
  b64_roundtrip_aux b64UrlAlphabet charSextet_sextetChar_url sextetChar_ne_pad_url bs hb

theorem pkcs7pad_length (msg : List Nat) :
    (pkcs7pad msg).length = msg.length + (16 - msg.length % 16) := by
  simp [pkcs7pad]

theorem pkcs7pad_length_mod (msg : List Nat) : (pkcs7pad msg).length % 16 = 0 := by
  rw [pkcs7pad_length]
  omega

theorem pkcs7pad_bytes (msg : List Nat) (hb : ∀ b ∈ msg, b < 256) :
    ∀ b ∈ pkcs7pad msg, b < 256 := by
  intro b hbm
  rcases List.mem_append.mp hbm with h | h
  · exact hb b h
  · have := List.eq_of_mem_replicate h
    omega

theorem pkcs7_roundtrip (msg : List Nat) : pkcs7unpad (pkcs7pad msg) = some msg := by
  have hmod := Nat.mod_lt msg.length (y := 16) (by omega)
  have hlen : (pkcs7pad msg).length = msg.length + (16 - msg.length % 16) :=
    pkcs7pad_length msg
  have hlast : (pkcs7pad msg).getLast? = some (16 - msg.length % 16) := by
    unfold pkcs7pad
    rw [List.getLast?_append_of_ne_nil _ (by
      intro h
      have := congrArg List.length h
      simp at this
      omega)]
    rw [show List.replicate (16 - msg.length % 16) (16 - msg.length % 16) =
      List.replicate (16 - msg.length % 16 - 1) (16 - msg.length % 16) ++
        [16 - msg.length % 16] by
        rw [← List.replicate_succ']
        congr 1
        omega]
    simp
  have hdrop : (pkcs7pad msg).drop ((pkcs7pad msg).length - (16 - msg.length % 16)) =
      List.replicate (16 - msg.length % 16) (16 - msg.length % 16) := by
    rw [hlen, Nat.add_sub_cancel]
    conv_lhs => rw [show msg.length = msg.length from rfl]
    exact List.drop_left msg _
  have htake : (pkcs7pad msg).take ((pkcs7pad msg).length - (16 - msg.length % 16)) =
      msg := by
    rw [hlen, Nat.add_sub_cancel]
    exact List.take_left msg _
  unfold pkcs7unpad
  rw [if_neg (by rw [hlen]; omega)]
  simp only [hlast]
  rw [if_pos ?cond]
  case cond =>
    refine ⟨by omega, by omega, by rw [hlen]; omega, ?_⟩
    rw [hdrop]
    simp only [List.all_eq_true, decide_eq_true_eq]
    intro b hbm
    exact List.eq_of_mem_replicate hbm
  rw [htake]

theorem xor_lt_256 (a b : Nat) (ha : a < 256) (hb : b < 256) : a ^^^ b < 256 := by
  show Nat.bitwise bne a b < 256
  have h256 : (256 : Nat) = 2 ^ 8 := by norm_num
  rw [h256] at ha hb ⊢
  exact Nat.bitwise_lt ha hb

theorem zipXor_length (a b : List Nat) :
    (zipXor a b).length = min a.length b.length := by
  simp [zipXor]

theorem zipXor_zipXor : ∀ (a b : List Nat), a.length = b.length →
    zipXor a (zipXor a b) = b
  | [], [], _ => rfl
  | [], _ :: _, h => by simp at h
  | _ :: _, [], h => by simp at h
  | x :: xs, y :: ys, h => by
    simp only [zipXor, List.zipWith_cons_cons] at *
    refine congrArg₂ _ (Nat.xor_cancel_left x y) ?_
    exact zipXor_zipXor xs ys (by simpa using h)

theorem zipXor_bytes : ∀ (a b : List Nat), (∀ x ∈ a, x < 256) →
    (∀ x ∈ b, x < 256) → ∀ x ∈ zipXor a b, x < 256
  | [], _, _, _ => by simp [zipXor]
  | _ :: _, [], _, _ => by simp [zipXor]
  | x :: xs, y :: ys, ha, hb => by
    intro z hz
    simp only [zipXor, List.zipWith_cons_cons] at hz
    rcases List.mem_cons.mp hz with rfl | hz
    · exact xor_lt_256 x y (ha x (by simp)) (hb y (by simp))
    · exact zipXor_bytes xs ys (fun u hu => ha u (by simp [hu]))
        (fun u hu => hb u (by simp [hu])) z hz

theorem cbc_roundtrip (E D : List Nat → List Nat)
    (hDE : ∀ x : List Nat, x.length = 16 → D (E x) = x)
    (hElen : ∀ x : List Nat, x.length = 16 → (E x).length = 16) :
    ∀ (bls : List (List Nat)) (prev : List Nat), prev.length = 16 →
      (∀ b ∈ bls, b.length = 16) →
      cbcDecBlocks D prev (cbcEncBlocks E prev bls) = bls := by
  intro bls
  induction bls with
  | nil => intro prev _ _; rfl
  | cons b bs ih =>
    intro prev hprev hbl
    have hb : b.length = 16 := hbl b (by simp)
    have hxlen : (zipXor prev b).length = 16 := by
      rw [zipXor_length]; omega
    simp only [cbcEncBlocks, cbcDecBlocks]
    rw [hDE _ hxlen, zipXor_zipXor prev b (by omega),
      ih (E (zipXor prev b)) (hElen _ hxlen) (fun x hx => hbl x (by simp [hx]))]

theorem cbcEncBlocks_count (E : List Nat → List Nat) :
    ∀ (bls : List (List Nat)) (prev : List Nat),
      (cbcEncBlocks E prev bls).length = bls.length
  | [], _ => rfl
  | b :: bs, prev => by
    simp only [cbcEncBlocks, List.length_cons]
    rw [cbcEncBlocks_count E bs]

theorem cbcEncBlocks_block_len (E : List Nat → List Nat)
    (hElen : ∀ x : List Nat, x.length = 16 → (E x).length = 16) :
    ∀ (bls : List (List Nat)) (prev : List Nat), prev.length = 16 →
      (∀ b ∈ bls, b.length = 16) →
      ∀ c ∈ cbcEncBlocks E prev bls, c.length = 16
  | [], _, _, _ => by simp [cbcEncBlocks]
  | b :: bs, prev, hprev, hbl => by
    intro c hc
    have hb : b.length = 16 := hbl b (by simp)
    have hxlen : (zipXor prev b).length = 16 := by
      rw [zipXor_length]; omega
    simp only [cbcEncBlocks] at hc
    rcases List.mem_cons.mp hc with rfl | hc
    · exact hElen _ hxlen
    · exact cbcEncBlocks_block_len E hElen bs (E (zipXor prev b))
        (hElen _ hxlen) (fun x hx => hbl x (by simp [hx])) c hc

theorem cbcEncBlocks_block_bytes (E : List Nat → List Nat)
    (hElen : ∀ x : List Nat, x.length = 16 → (E x).length = 16)
    (hEbytes : ∀ x : List Nat, x.length = 16 → (∀ b ∈ x, b < 256) →
      ∀ b ∈ E x, b < 256) :
    ∀ (bls : List (List Nat)) (prev : List Nat), prev.length = 16 →
      (∀ x ∈ prev, x < 256) →
      (∀ b ∈ bls, b.length = 16) → (∀ b ∈ bls, ∀ x ∈ b, x < 256) →
      ∀ c ∈ cbcEncBlocks E prev bls, ∀ x ∈ c, x < 256
  | [], _, _, _, _, _ => by simp [cbcEncBlocks]
  | b :: bs, prev, hprev, hprevb, hbl, hblb => by
    intro c hc
    have hb : b.length = 16 := hbl b (by simp)
    have hxlen : (zipXor prev b).length = 16 := by
      rw [zipXor_length]; omega
    have hxbytes : ∀ x ∈ zipXor prev b, x < 256 :=
      zipXor_bytes prev b hprevb (hblb b (by simp))
    simp only [cbcEncBlocks] at hc
    rcases List.mem_cons.mp hc with rfl | hc
    · exact hEbytes _ hxlen hxbytes
    · exact cbcEncBlocks_block_bytes E hElen hEbytes bs (E (zipXor prev b))
        (hElen _ hxlen) (hEbytes _ hxlen hxbytes)
        (fun x hx => hbl x (by simp [hx]))
        (fun x hx => hblb x (by simp [hx])) c hc

theorem toBlocks_block_len : ∀ l : List Nat, l.length % 16 = 0 →
    ∀ b ∈ toBlocks l, b.length = 16 := by
  intro l
  induction l using toBlocks.induct with
  | case1 => simp [toBlocks]
  | case2 x l ih =>
    intro h b hb
    rw [toBlocks] at hb
    rcases List.mem_cons.mp hb with rfl | hb
    · rw [List.length_take]
      simp only [List.length_cons] at h ⊢
      omega
    · refine ih ?_ b hb
      rw [List.length_drop]
      simp only [List.length_cons] at h ⊢
      omega

theorem flatten_toBlocks : ∀ l : List Nat, l.length % 16 = 0 →
    (toBlocks l).flatten = l := by
  intro l
  induction l using toBlocks.induct with
  | case1 => intro _; rw [toBlocks]; rfl
  | case2 x l ih =>
    intro h
    rw [toBlocks, List.flatten_cons]
    rw [ih (by rw [List.length_drop]; simp only [List.length_cons] at h ⊢; omega)]
    exact List.take_append_drop 16 (x :: l)

theorem toBlocks_flatten : ∀ bls : List (List Nat),
    (∀ b ∈ bls, b.length = 16) → toBlocks bls.flatten = bls
  | [], _ => by rw [List.flatten_nil, toBlocks]
  | b :: bs, h => by
    have hb : b.length = 16 := h b (by simp)
    have hbne : b ≠ [] := by
      intro e
      rw [e] at hb
      simp at hb
    obtain ⟨x, b', rfl⟩ := List.exists_cons_of_ne_nil hbne
    rw [List.flatten_cons, List.cons_append, toBlocks]
    rw [show (x :: (b' ++ bs.flatten)).take 16 = x :: b' by
      rw [← List.cons_append]
      exact List.take_left' hb]
    rw [show (x :: (b' ++ bs.flatten)).drop 16 = bs.flatten by
      rw [← List.cons_append]
      exact List.drop_left' hb]
    rw [toBlocks_flatten bs (fun c hc => h c (by simp [hc]))]

theorem flatten_bytes (bls : List (List Nat))
    (h : ∀ b ∈ bls, ∀ x ∈ b, x < 256) : ∀ x ∈ bls.flatten, x < 256 := by
  intro x hx
  obtain ⟨b, hb, hxb⟩ := List.mem_flatten.mp hx
  exact h b hb x hxb

theorem flatten_length_16 : ∀ bls : List (List Nat),
    (∀ b ∈ bls, b.length = 16) → bls.flatten.length = 16 * bls.length
  | [], _ => rfl
  | b :: bs, h => by
    rw [List.flatten_cons, List.length_append,
      flatten_length_16 bs (fun c hc => h c (by simp [hc])), h b (by simp)]
    simp
    ring

theorem toBlocks_mem_subset : ∀ l : List Nat, ∀ b ∈ toBlocks l, ∀ x ∈ b, x ∈ l := by
  intro l
  induction l using toBlocks.induct with
  | case1 => simp [toBlocks]
  | case2 y l ih =>
    intro b hb x hx
    rw [toBlocks] at hb
    rcases List.mem_cons.mp hb with rfl | hb
    · exact List.take_subset _ _ hx
    · exact List.drop_subset _ _ (ih b hb x hx)

theorem fernetDecrypt_of_decode (P : FernetPrims) (token : String) (data : List Nat)
    (h : urlsafe_b64decode token = some data) :
    fernetDecrypt P token = fernetDecryptData P data := by
  unfold fernetDecrypt
  rw [h]

theorem fernetDecrypt_of_decode_none (P : FernetPrims) (token : String)
    (h : urlsafe_b64decode token = none) : fernetDecrypt P token = none := by
  unfold fernetDecrypt
  rw [h]

theorem fernet_roundtrip (P : FernetPrims) (hP : FernetGood P) (msg : List Nat)
    (hb : ∀ b ∈ msg, b < 256) :
    fernetDecrypt P (fernetEncrypt P msg) = some msg := by
  obtain ⟨hDE, hElen, hEbytes, hmacLen, hmacBytes, htsLen, htsBytes, hivLen, hivBytes⟩ := hP
  have hpadmod : (pkcs7pad msg).length % 16 = 0 := pkcs7pad_length_mod msg
  have hpadbytes : ∀ b ∈ pkcs7pad msg, b < 256 := pkcs7pad_bytes msg hb
  have hblen : ∀ b ∈ toBlocks (pkcs7pad msg), b.length = 16 :=
    toBlocks_block_len _ hpadmod
  have hbbytes : ∀ b ∈ toBlocks (pkcs7pad msg), ∀ x ∈ b, x < 256 :=
    fun b hbm x hx => hpadbytes x (toBlocks_mem_subset _ b hbm x hx)
  set ctb := cbcEncBlocks P.encBlock P.iv (toBlocks (pkcs7pad msg)) with hctb_def
  have hctblen : ∀ c ∈ ctb, c.length = 16 :=
    cbcEncBlocks_block_len P.encBlock hElen _ P.iv hivLen hblen
  have hctbbytes : ∀ c ∈ ctb, ∀ x ∈ c, x < 256 :=
    cbcEncBlocks_block_bytes P.encBlock hElen hEbytes _ P.iv hivLen hivBytes hblen hbbytes
  set ct := ctb.flatten with hct_def
  have hctmod : ct.length % 16 = 0 := by
    rw [hct_def, flatten_length_16 ctb hctblen]
    omega
  have hctbytes : ∀ x ∈ ct, x < 256 := flatten_bytes ctb hctbbytes
  set basic := (128 : Nat) :: (P.timestamp ++ P.iv ++ ct) with hbasic_def
  set tag := P.hmac basic with htag_def
  have htaglen : tag.length = 32 := hmacLen basic
  have hbasiclen : basic.length = 25 + ct.length := by
    rw [hbasic_def]
    simp only [List.length_cons, List.length_append, htsLen, hivLen]
    omega
  have hdatabytes : ∀ b ∈ basic ++ tag, b < 256 := by
    intro b hbm
    rcases List.mem_append.mp hbm with h | h
    · rw [hbasic_def] at h
      rcases List.mem_cons.mp h with rfl | h
      · omega
      · rcases List.mem_append.mp h with h | h
        · rcases List.mem_append.mp h with h | h
          · exact htsBytes b h
          · exact hivBytes b h
        · exact hctbytes b h
    · rw [htag_def] at h
      exact hmacBytes basic b h
  have hb64 : urlsafe_b64decode (fernetEncrypt P msg) = some (basic ++ tag) :=
    urlsafe_b64_roundtrip (basic ++ tag) hdatabytes
  rw [fernetDecrypt_of_decode P _ _ hb64]
  have hdlen : (basic ++ tag).length = 57 + ct.length := by
    rw [List.length_append, hbasiclen, htaglen]
    omega
  have hsplit : (basic ++ tag).length - 32 = basic.length := by omega
  have htake : (basic ++ tag).take ((basic ++ tag).length - 32) = basic := by
    rw [hsplit]
    exact List.take_left basic tag
  have hdropT : (basic ++ tag).drop ((basic ++ tag).length - 32) = tag := by
    rw [hsplit]
    exact List.drop_left basic tag
  have hhead : (basic ++ tag).head? = some 128 := by
    rw [hbasic_def]
    rfl
  have hciph : ((basic ++ tag).take ((basic ++ tag).length - 32)).drop 25 = ct := by
    rw [htake, hbasic_def]
    rw [show (128 : Nat) :: (P.timestamp ++ P.iv ++ ct) =
      ((128 : Nat) :: (P.timestamp ++ P.iv)) ++ ct from rfl]
    rw [show (25 : Nat) = ((128 : Nat) :: (P.timestamp ++ P.iv)).length from by
      simp [htsLen, hivLen]]
    exact List.drop_left _ _
  have hiv : ((basic ++ tag).drop 9).take 16 = P.iv := by
    have hD2 : basic ++ tag = ((128 : Nat) :: P.timestamp) ++ (P.iv ++ (ct ++ tag)) := by
      rw [hbasic_def]
      simp [List.append_assoc]
    rw [hD2]
    rw [show (9 : Nat) = ((128 : Nat) :: P.timestamp).length from by simp [htsLen]]
    rw [List.drop_left]
    rw [show (16 : Nat) = P.iv.length from hivLen.symm]
    exact List.take_left _ _
  unfold fernetDecryptData
  rw [if_neg (by rw [hhead]; simp)]
  rw [if_neg (by rw [hdlen]; omega)]
  rw [if_neg (by rw [hdlen]; omega)]
  rw [if_neg (by rw [htake, hdropT, htag_def]; simp)]
  rw [if_neg (by rw [hciph]; simp [hctmod])]
  rw [hciph, hiv]
  rw [hct_def, toBlocks_flatten ctb hctblen, hctb_def]
  rw [cbc_roundtrip P.encBlock P.decBlock hDE hElen (toBlocks (pkcs7pad msg))
    P.iv hivLen hblen]
  rw [flatten_toBlocks (pkcs7pad msg) hpadmod]
  exact pkcs7_roundtrip msg

theorem fernetDecryptData_none_of_malformed (P : FernetPrims) (data : List Nat)
    (h : wellFormedData P data = false) : fernetDecryptData P data = none := by
  unfold wellFormedData at h
  rw [decide_eq_false_iff_not] at h
  unfold fernetDecryptData
  split_ifs with h1 h2 h3 h4 h5
  · rfl
  · rfl
  · rfl
  · rfl
  · rfl
  · cases hu : pkcs7unpad ((cbcDecBlocks P.decBlock ((data.drop 9).take 16)
      (toBlocks ((data.take (data.length - 32)).drop 25))).flatten) with
    | none => rfl
    | some m =>
      exact absurd ⟨not_not.mp h1, by omega, by omega, not_not.mp h4,
        not_not.mp h5, by rw [hu]; rfl⟩ h

theorem fernet_decrypt_malformed (P : FernetPrims) (s : String)
    (h : wellFormedToken P s = false) : fernetDecrypt P s = none := by
  cases hdec : urlsafe_b64decode s with
  | none => exact fernetDecrypt_of_decode_none P s hdec
  | some data =>
    rw [fernetDecrypt_of_decode P s data hdec]
    apply fernetDecryptData_none_of_malformed
    simp only [wellFormedToken, hdec] at h
    exact h

theorem fernetId_good : FernetGood fernetId := by
  refine ⟨fun _ _ => rfl, fun x h => h, fun x _ hb => hb, fun _ => by simp [fernetId],
    fun x b hbm => ?_, by simp [fernetId], fun b hbm => ?_, by simp [fernetId],
    fun b hbm => ?_⟩
  all_goals
    simp only [fernetId] at hbm
    have := List.eq_of_mem_replicate hbm
    omega

/-- C5: over the modelled Fernet codec (external library, modelled from
the published token layout with the AES block permutation and HMAC
abstracted), `decrypt_api_key ∘ encrypt_api_key` is the identity on
every non-empty byte-level key, and `decrypt_api_key` raises
(`none`, modelling `InvalidToken`) on every string that is not a
well-formed token — never returning a wrong plaintext. -/
theorem api_key_codec_roundtrip (P : FernetPrims) (hP : FernetGood P) :
    (∀ x : List Nat, x ≠ [] → (∀ b ∈ x, b < 256) →
      decrypt_api_key P (encrypt_api_key P x) = some x) ∧
    ∀ s : String, wellFormedToken P s = false → decrypt_api_key P s = none :=
  ⟨fun x _ hbx => fernet_roundtrip P hP x hbx,
   fun s hs => fernet_decrypt_malformed P s hs⟩

theorem api_key_codec_roundtrip_witness :
    decrypt_api_key fernetId (encrypt_api_key fernetId [104, 105]) = some [104, 105] ∧
    decrypt_api_key fernetId "*" = none :=
  ⟨(api_key_codec_roundtrip fernetId fernetId_good).1 [104, 105] (by decide) (by decide),
   (api_key_codec_roundtrip fernetId fernetId_good).2 "*" (by decide)⟩
